/-
  Verification of the smart-diet-tracker server handlers.

  Shallow embedding of the TypeScript handlers that maintain the per-user,
  per-day DailySummary aggregate and serve daily progress:

    - logFood / updateDailySummary   (src/server/src/handlers/get_user_by_id.ts, 2nd unit)
    - logFluid                       (src/server/src/handlers/search_food_items.ts, 2nd unit)
    - deleteFoodLog                  (src/unnamed/part_008)
    - deleteFluidLog                 (src/server/src/handlers/delete_fluid_log.ts)
    - getUserDailyGoals              (src/server/src/handlers/log_food.ts, 2nd unit)
    - updateDailyGoals               (src/server/src/handlers/update_daily_goals.ts)
    - getUserDailyProgress           (src/unnamed/part_010)

  Modelling conventions:
    - The relational store is a record of lists of rows; SELECT ... WHERE is
      List.filter, [0] / LIMIT 1 is List.head?, UPDATE ... WHERE is List.map
      with a conditional rewrite, INSERT is list append with a per-table
      serial id counter, DELETE ... WHERE is List.filter with the negated
      condition, and an INNER JOIN is a List.bind pairing each row with the
      matching rows of the joined table.
    - Numeric columns (stored as exact decimal strings in the source and
      parsed with parseFloat) are modelled as rationals.
    - A timestamp is a UTC calendar-day index plus milliseconds within the
      day (valid timestamps have ms < 86400000); consumed_at.toISOString()
      followed by .split('T')[0] is the day component, and SQL timestamp
      comparison is lexicographic comparison on (day, ms).
    - The progress-percentage computation divides JavaScript numbers, where
      division by zero produces Infinity / NaN, so that one computation is
      carried out in a JS-number value type with explicit non-finite values.
    - Handlers that throw return Except.error together with the unchanged
      store; handlers that return booleans return Bool together with the
      (possibly updated) store.
-/
import Mathlib

namespace Diet

/-- A UTC timestamp: calendar-day index and milliseconds within the day. -/
structure Timestamp where
  day : Int
  ms : Nat
deriving DecidableEq, Repr

/-- Chronological strict order on timestamps (SQL lt on a timestamp column). -/
def tsLtB (a b : Timestamp) : Bool :=
  a.day < b.day || (a.day == b.day && a.ms < b.ms)

/-- Chronological order on timestamps (SQL gte is tsLeB in the other direction). -/
def tsLeB (a b : Timestamp) : Bool :=
  a.day < b.day || (a.day == b.day && a.ms ≤ b.ms)

/-- The UTC calendar date of a timestamp: consumed_at.toISOString().split('T')[0]. -/
def dateOf (t : Timestamp) : Int := t.day

/-- A row of usersTable. -/
structure User where
  id : Nat
  name : String
  email : String
deriving DecidableEq, Repr

/-- A row of foodItemsTable (per-100g nutrient rates). -/
structure FoodItem where
  id : Nat
  name : String
  calories_per_100g : ℚ
  protein_per_100g : ℚ
  carbs_per_100g : ℚ
  fats_per_100g : ℚ
deriving DecidableEq, Repr

/-- A row of dailyGoalsTable. -/
structure DailyGoalsRow where
  id : Nat
  user_id : Nat
  daily_calories : ℚ
  daily_protein : ℚ
  daily_carbs : ℚ
  daily_fats : ℚ
  daily_fluid : ℚ
  created_at : Timestamp
  updated_at : Timestamp
deriving DecidableEq, Repr

/-- A row of foodLogsTable. -/
structure FoodLogRow where
  id : Nat
  user_id : Nat
  food_item_id : Nat
  portion_size : ℚ
  consumed_at : Timestamp
  created_at : Timestamp
deriving DecidableEq, Repr

/-- A row of fluidLogsTable. -/
structure FluidLogRow where
  id : Nat
  user_id : Nat
  fluid_type : String
  volume : ℚ
  consumed_at : Timestamp
  created_at : Timestamp
deriving DecidableEq, Repr

/-- A row of dailySummariesTable. -/
structure DailySummaryRow where
  id : Nat
  user_id : Nat
  summary_date : Int
  total_calories : ℚ
  total_protein : ℚ
  total_carbs : ℚ
  total_fats : ℚ
  total_fluid : ℚ
  created_at : Timestamp
  updated_at : Timestamp
deriving DecidableEq, Repr

/-- The WHERE clause selecting the DailySummary row for (user, calendar date). -/
def summKey (userId : Nat) (d : Int) (r : DailySummaryRow) : Bool :=
  r.user_id == userId && r.summary_date == d

/-- The WHERE clause selecting a FoodLog by id and owner. -/
def foodOwnKey (logId userId : Nat) (l : FoodLogRow) : Bool :=
  l.id == logId && l.user_id == userId

/-- The WHERE clause selecting a FluidLog by id and owner. -/
def fluidOwnKey (logId userId : Nat) (l : FluidLogRow) : Bool :=
  l.id == logId && l.user_id == userId

/-- The relational store, with a serial id counter per inserted-into table. -/
structure Store where
  users : List User
  food_items : List FoodItem
  daily_goals : List DailyGoalsRow
  food_logs : List FoodLogRow
  fluid_logs : List FluidLogRow
  daily_summaries : List DailySummaryRow
  next_food_log_id : Nat
  next_fluid_log_id : Nat
  next_summary_id : Nat
deriving DecidableEq, Repr

/-- Input of logFood (logFoodInputSchema): consumed_at is optional. -/
structure LogFoodInput where
  user_id : Nat
  food_item_id : Nat
  portion_size : ℚ
  consumed_at : Option Timestamp
deriving DecidableEq, Repr

/-- Input of logFluid (logFluidInputSchema). -/
structure LogFluidInput where
  user_id : Nat
  fluid_type : String
  volume : ℚ
  consumed_at : Option Timestamp
deriving DecidableEq, Repr

/-- Input of updateDailyGoals (updateDailyGoalsInputSchema): all five targets optional. -/
structure UpdateDailyGoalsInput where
  id : Nat
  daily_calories : Option ℚ
  daily_protein : Option ℚ
  daily_carbs : Option ℚ
  daily_fats : Option ℚ
  daily_fluid : Option ℚ
deriving DecidableEq, Repr

/-- The dailyGoalsSchema zod constraints on the numeric fields:
    daily_calories positive, the other four targets nonnegative. -/
def dailyGoalsValid (g : DailyGoalsRow) : Prop :=
  0 < g.daily_calories ∧ 0 ≤ g.daily_protein ∧ 0 ≤ g.daily_carbs ∧
    0 ≤ g.daily_fats ∧ 0 ≤ g.daily_fluid

instance (g : DailyGoalsRow) : Decidable (dailyGoalsValid g) := by
  unfold dailyGoalsValid; infer_instance

/-- The foodItemSchema zod constraints: all four per-100g rates nonnegative. -/
def foodItemValid (f : FoodItem) : Prop :=
  0 ≤ f.calories_per_100g ∧ 0 ≤ f.protein_per_100g ∧
    0 ≤ f.carbs_per_100g ∧ 0 ≤ f.fats_per_100g

instance (f : FoodItem) : Decidable (foodItemValid f) := by
  unfold foodItemValid; infer_instance

/-- JavaScript number values relevant to the percentage computation:
    finite values (modelled exactly as rationals), the two infinities and NaN. -/
inductive JSVal where
  | fin (q : ℚ)
  | posInf
  | negInf
  | nan
deriving DecidableEq, Repr

/-- JavaScript division of finite numbers: division by zero yields
    Infinity, -Infinity or NaN according to the sign of the dividend. -/
def jsDiv (a b : ℚ) : JSVal :=
  if b = 0 then (if 0 < a then .posInf else if a < 0 then .negInf else .nan)
  else .fin (a / b)

/-- Multiplication of a JavaScript number by the positive constant 100. -/
def jsMul100 : JSVal → JSVal
  | .fin q => .fin (q * 100)
  | .posInf => .posInf
  | .negInf => .negInf
  | .nan => .nan

/-- JavaScript Math.round: half-way cases round toward positive infinity;
    Math.round(Infinity) = Infinity and Math.round(NaN) = NaN. -/
def jsRound : JSVal → JSVal
  | .fin q => .fin ((⌊q + 1/2⌋ : Int) : ℚ)
  | .posInf => .posInf
  | .negInf => .negInf
  | .nan => .nan

/-- Whether a JavaScript number is finite. -/
def jsIsFinite : JSVal → Bool
  | .fin _ => true
  | _ => false

/-- Math.round((total / target) * 100), as computed in getUserDailyProgress. -/
def pct (total target : ℚ) : JSVal := jsRound (jsMul100 (jsDiv total target))

/-- ORDER BY ts DESC LIMIT 1 then [0]: the first row carrying the maximal
    timestamp under f (ties keep the earlier row). -/
def latestBy {α : Type} (f : α → Timestamp) (l : List α) : Option α :=
  l.foldl (fun acc x =>
    match acc with
    | none => some x
    | some m => if tsLtB (f m) (f x) then some x else some m) none

/-- updateDailySummary from the logFood handler: nutrient deltas are
    per-100g rate times portion_size / 100; an existing row for the
    (user, calendar date) key is updated additively by id, otherwise a new
    row is inserted with zero fluid. -/
def updateDailySummary (s : Store) (now : Timestamp) (userId : Nat)
    (consumedAt : Timestamp) (foodItem : FoodItem) (portionSize : ℚ) : Store :=
  let summaryDate := dateOf consumedAt
  let portionMultiplier := portionSize / 100
  let calories := foodItem.calories_per_100g * portionMultiplier
  let protein := foodItem.protein_per_100g * portionMultiplier
  let carbs := foodItem.carbs_per_100g * portionMultiplier
  let fats := foodItem.fats_per_100g * portionMultiplier
  match (s.daily_summaries.filter (summKey userId summaryDate)).head? with
  | some currentSummary =>
      { s with daily_summaries := s.daily_summaries.map (fun r =>
          if r.id == currentSummary.id then
            { r with
              total_calories := r.total_calories + calories
              total_protein := r.total_protein + protein
              total_carbs := r.total_carbs + carbs
              total_fats := r.total_fats + fats
              updated_at := now }
          else r) }
  | none =>
      { s with
        daily_summaries := s.daily_summaries ++
          [{ id := s.next_summary_id
             user_id := userId
             summary_date := summaryDate
             total_calories := calories
             total_protein := protein
             total_carbs := carbs
             total_fats := fats
             total_fluid := 0
             created_at := now
             updated_at := now }]
        next_summary_id := s.next_summary_id + 1 }

/-- logFood: validates that the user and the food item exist, inserts the
    FoodLog row (consumed_at defaulting to now), then updates the daily
    summary; on a failed validation it throws and the store is unchanged. -/
def logFood (s : Store) (now : Timestamp) (input : LogFoodInput) :
    Except String FoodLogRow × Store :=
  match (s.users.filter (fun u => u.id == input.user_id)).head? with
  | none =>
      (.error ("User with ID " ++ toString input.user_id ++ " not found"), s)
  | some _ =>
    match (s.food_items.filter (fun f => f.id == input.food_item_id)).head? with
    | none =>
        (.error ("Food item with ID " ++ toString input.food_item_id ++ " not found"), s)
    | some foodItem =>
        let consumedAt := input.consumed_at.getD now
        let foodLog : FoodLogRow :=
          { id := s.next_food_log_id
            user_id := input.user_id
            food_item_id := input.food_item_id
            portion_size := input.portion_size
            consumed_at := consumedAt
            created_at := now }
        let s1 := { s with
          food_logs := s.food_logs ++ [foodLog]
          next_food_log_id := s.next_food_log_id + 1 }
        let s2 := updateDailySummary s1 now input.user_id consumedAt foodItem
          input.portion_size
        (.ok foodLog, s2)

/-- logFluid: validates that the user exists, inserts the FluidLog row,
    then adds the volume to the existing summary row for the consumption
    date (updated by id) or inserts a new summary row with zero nutrients. -/
def logFluid (s : Store) (now : Timestamp) (input : LogFluidInput) :
    Except String FluidLogRow × Store :=
  match (s.users.filter (fun u => u.id == input.user_id)).head? with
  | none =>
      (.error ("User with id " ++ toString input.user_id ++ " not found"), s)
  | some _ =>
      let consumedAt := input.consumed_at.getD now
      let fluidLog : FluidLogRow :=
        { id := s.next_fluid_log_id
          user_id := input.user_id
          fluid_type := input.fluid_type
          volume := input.volume
          consumed_at := consumedAt
          created_at := now }
      let s1 := { s with
        fluid_logs := s.fluid_logs ++ [fluidLog]
        next_fluid_log_id := s.next_fluid_log_id + 1 }
      let summaryDate := dateOf consumedAt
      match (s1.daily_summaries.filter (summKey input.user_id summaryDate)).head? with
      | some existingSummary =>
          let newTotalFluid := existingSummary.total_fluid + input.volume
          (.ok fluidLog,
            { s1 with daily_summaries := s1.daily_summaries.map (fun r =>
                if r.id == existingSummary.id then
                  { r with total_fluid := newTotalFluid, updated_at := now }
                else r) })
      | none =>
          (.ok fluidLog,
            { s1 with
              daily_summaries := s1.daily_summaries ++
                [{ id := s1.next_summary_id
                   user_id := input.user_id
                   summary_date := summaryDate
                   total_calories := 0
                   total_protein := 0
                   total_carbs := 0
                   total_fats := 0
                   total_fluid := input.volume
                   created_at := now
                   updated_at := now }]
              next_summary_id := s1.next_summary_id + 1 })

/-- deleteFoodLog: selects the log joined with its food item, filtered by
    id and owner; if the join is empty returns false with no mutation.
    Otherwise deletes the log and subtracts the recomputed per-portion
    contribution from every summary row matching (user, calendar date) —
    with no clamping at zero (raw SQL subtraction). -/
def deleteFoodLog (s : Store) (now : Timestamp) (logId userId : Nat) :
    Bool × Store :=
  let joined := (s.food_logs.filter (foodOwnKey logId userId)).flatMap
    (fun l => (s.food_items.filter (fun f => f.id == l.food_item_id)).map
      (fun f => (l, f)))
  match joined.head? with
  | none => (false, s)
  | some (foodLog, item) =>
      let portionSize := foodLog.portion_size
      let removedCalories := item.calories_per_100g / 100 * portionSize
      let removedProtein := item.protein_per_100g / 100 * portionSize
      let removedCarbs := item.carbs_per_100g / 100 * portionSize
      let removedFats := item.fats_per_100g / 100 * portionSize
      let summaryDate := dateOf foodLog.consumed_at
      let deleted := s.food_logs.filter (foodOwnKey logId userId)
      let remaining := s.food_logs.filter (fun l => !(foodOwnKey logId userId l))
      let s1 := { s with food_logs := remaining }
      if deleted.length == 0 then (false, s)
      else
        (true,
          { s1 with daily_summaries := s1.daily_summaries.map (fun r =>
              if summKey userId summaryDate r then
                { r with
                  total_calories := r.total_calories - removedCalories
                  total_protein := r.total_protein - removedProtein
                  total_carbs := r.total_carbs - removedCarbs
                  total_fats := r.total_fats - removedFats
                  updated_at := now }
              else r) })

/-- deleteFluidLog: selects the log by id and owner; returns false with no
    mutation if absent. Otherwise deletes the log and, when a summary row
    for (user, calendar date) exists, writes max(0, total_fluid - volume)
    computed from the first such row into every row matching that key;
    when no summary row exists the reversal is silently skipped. -/
def deleteFluidLog (s : Store) (now : Timestamp) (logId userId : Nat) :
    Bool × Store :=
  match (s.fluid_logs.filter (fluidOwnKey logId userId)).head? with
  | none => (false, s)
  | some fluidLog =>
      let volumeToRemove := fluidLog.volume
      let logDate := dateOf fluidLog.consumed_at
      let deleted := s.fluid_logs.filter (fluidOwnKey logId userId)
      let remaining := s.fluid_logs.filter (fun l => !(fluidOwnKey logId userId l))
      let s1 := { s with fluid_logs := remaining }
      if deleted.length == 0 then (false, s)
      else
        match (s1.daily_summaries.filter (summKey userId logDate)).head? with
        | some existingSummary =>
            let newTotalFluid := max 0 (existingSummary.total_fluid - volumeToRemove)
            (true,
              { s1 with daily_summaries := s1.daily_summaries.map (fun r =>
                  if summKey userId logDate r then
                    { r with total_fluid := newTotalFluid, updated_at := now }
                  else r) })
        | none => (true, s1)

/-- getUserDailyGoals from the log_food.ts compilation unit: the user's
    goals row that is latest by created_at (not updated_at). -/
def getUserDailyGoals (s : Store) (userId : Nat) : Option DailyGoalsRow :=
  latestBy (fun g => g.created_at)
    (s.daily_goals.filter (fun g => g.user_id == userId))

/-- updateDailyGoals: updates the provided target fields of the goals row
    with the given id, always bumping updated_at; throws when no row has
    that id. -/
def applyGoalsUpdate (input : UpdateDailyGoalsInput) (now : Timestamp)
    (r : DailyGoalsRow) : DailyGoalsRow :=
  { r with
    daily_calories := input.daily_calories.getD r.daily_calories
    daily_protein := input.daily_protein.getD r.daily_protein
    daily_carbs := input.daily_carbs.getD r.daily_carbs
    daily_fats := input.daily_fats.getD r.daily_fats
    daily_fluid := input.daily_fluid.getD r.daily_fluid
    updated_at := now }

/-- updateDailyGoals handler. -/
def updateDailyGoals (s : Store) (now : Timestamp)
    (input : UpdateDailyGoalsInput) : Except String DailyGoalsRow × Store :=
  match (s.daily_goals.filter (fun r => r.id == input.id)).head? with
  | none =>
      (.error ("Daily goals with id " ++ toString input.id ++ " not found"), s)
  | some r =>
      (.ok (applyGoalsUpdate input now r),
        { s with daily_goals := s.daily_goals.map (fun x =>
            if x.id == input.id then applyGoalsUpdate input now x else x) })

/-- The five progress percentages returned by getUserDailyProgress. -/
structure ProgressPercentages where
  calories : JSVal
  protein : JSVal
  carbs : JSVal
  fats : JSVal
  fluid : JSVal
deriving DecidableEq, Repr

/-- The composed result of getUserDailyProgress. -/
structure DailyProgress where
  date : Int
  goals : Option DailyGoalsRow
  summary : Option DailySummaryRow
  food_logs : List FoodLogRow
  fluid_logs : List FluidLogRow
  progress_percentages : ProgressPercentages
deriving DecidableEq, Repr

/-- getUserDailyProgress: goals latest by updated_at, summary by key,
    food and fluid logs with consumed_at in [date 00:00:00.000,
    date 23:59:59.999) — gte on the day start, strict lt on 23:59:59.999 —
    food logs inner-joined with their food items, and the five percentages
    Math.round((total / target) * 100) when both goals and summary exist,
    0 otherwise. -/
def getUserDailyProgress (s : Store) (userId : Nat) (date : Int) :
    DailyProgress :=
  let goals := latestBy (fun g => g.updated_at)
    (s.daily_goals.filter (fun g => g.user_id == userId))
  let summary := (s.daily_summaries.filter (summKey userId date)).head?
  let startOfDay : Timestamp := { day := date, ms := 0 }
  let endOfDay : Timestamp := { day := date, ms := 86399999 }
  let food_logs := ((s.food_logs.filter (fun l =>
      l.user_id == userId && tsLeB startOfDay l.consumed_at &&
        tsLtB l.consumed_at endOfDay)).flatMap
    (fun l => (s.food_items.filter (fun f => f.id == l.food_item_id)).map
      (fun _ => l)))
  let fluid_logs := s.fluid_logs.filter (fun l =>
    l.user_id == userId && tsLeB startOfDay l.consumed_at &&
      tsLtB l.consumed_at endOfDay)
  let progress_percentages : ProgressPercentages :=
    match goals, summary with
    | some g, some m =>
        { calories := pct m.total_calories g.daily_calories
          protein := pct m.total_protein g.daily_protein
          carbs := pct m.total_carbs g.daily_carbs
          fats := pct m.total_fats g.daily_fats
          fluid := pct m.total_fluid g.daily_fluid }
    | _, _ =>
        { calories := .fin 0, protein := .fin 0, carbs := .fin 0,
          fats := .fin 0, fluid := .fin 0 }
  { date := date
    goals := goals
    summary := summary
    food_logs := food_logs
    fluid_logs := fluid_logs
    progress_percentages := progress_percentages }

/-- The per-day bucket of a food log: same user and same UTC calendar date. -/
def foodDayKey (userId : Nat) (d : Int) (l : FoodLogRow) : Bool :=
  l.user_id == userId && dateOf l.consumed_at == d

/-- The per-day bucket of a fluid log. -/
def fluidDayKey (userId : Nat) (d : Int) (l : FluidLogRow) : Bool :=
  l.user_id == userId && dateOf l.consumed_at == d

/-- The food item referenced by a food log (first row with the matching id). -/
def itemFor (items : List FoodItem) (l : FoodLogRow) : Option FoodItem :=
  (items.filter (fun f => f.id == l.food_item_id)).head?

/-- The contribution of a food log to one nutrient total: per-100g rate
    times portion_size / 100 (zero when the referenced item is missing). -/
def contrib (items : List FoodItem) (rate : FoodItem → ℚ) (l : FoodLogRow) : ℚ :=
  match itemFor items l with
  | some f => rate f * (l.portion_size / 100)
  | none => 0

/-- Sum of the contributions to one nutrient of all food logs of a user on a date. -/
def foodSum (items : List FoodItem) (rate : FoodItem → ℚ) (logs : List FoodLogRow)
    (userId : Nat) (d : Int) : ℚ :=
  ((logs.filter (foodDayKey userId d)).map (contrib items rate)).sum

/-- Sum of the volumes of all fluid logs of a user on a date. -/
def fluidSum (logs : List FluidLogRow) (userId : Nat) (d : Int) : ℚ :=
  ((logs.filter (fluidDayKey userId d)).map (fun l => l.volume)).sum

/-- The reconciliation property at one (user, date) key: either no summary
    row and no logs, or exactly one summary row whose five totals are the
    sums of the per-log contributions of the currently existing logs. -/
def SummOk (s : Store) (userId : Nat) (d : Int) : Prop :=
  (s.daily_summaries.filter (summKey userId d) = [] ∧
    s.food_logs.filter (foodDayKey userId d) = [] ∧
    s.fluid_logs.filter (fluidDayKey userId d) = []) ∨
  (∃ r, s.daily_summaries.filter (summKey userId d) = [r] ∧
    r.total_calories = foodSum s.food_items (fun f => f.calories_per_100g) s.food_logs userId d ∧
    r.total_protein = foodSum s.food_items (fun f => f.protein_per_100g) s.food_logs userId d ∧
    r.total_carbs = foodSum s.food_items (fun f => f.carbs_per_100g) s.food_logs userId d ∧
    r.total_fats = foodSum s.food_items (fun f => f.fats_per_100g) s.food_logs userId d ∧
    r.total_fluid = fluidSum s.fluid_logs userId d)

/-- The inductive invariant: reconciliation at every key, serial ids fresh
    and duplicate-free per table, nonnegative logged quantities, and food
    items satisfying their schema. -/
structure Inv (s : Store) : Prop where
  recon : ∀ userId d, SummOk s userId d
  food_nodup : (s.food_logs.map (fun l => l.id)).Nodup
  food_fresh : ∀ l ∈ s.food_logs, l.id < s.next_food_log_id
  fluid_nodup : (s.fluid_logs.map (fun l => l.id)).Nodup
  fluid_fresh : ∀ l ∈ s.fluid_logs, l.id < s.next_fluid_log_id
  summ_nodup : (s.daily_summaries.map (fun r => r.id)).Nodup
  summ_fresh : ∀ r ∈ s.daily_summaries, r.id < s.next_summary_id
  food_nonneg : ∀ l ∈ s.food_logs, 0 ≤ l.portion_size
  fluid_nonneg : ∀ l ∈ s.fluid_logs, 0 ≤ l.volume
  items_ok : ∀ f ∈ s.food_items, foodItemValid f

/-- One call of the four mutating log operations. -/
inductive Op where
  | food (now : Timestamp) (input : LogFoodInput)
  | delFood (now : Timestamp) (logId userId : Nat)
  | fluid (now : Timestamp) (input : LogFluidInput)
  | delFluid (now : Timestamp) (logId userId : Nat)

/-- Execute one operation against the store, keeping the resulting store. -/
def applyOp (s : Store) : Op → Store
  | .food now input => (logFood s now input).2
  | .delFood now logId userId => (deleteFoodLog s now logId userId).2
  | .fluid now input => (logFluid s now input).2
  | .delFluid now logId userId => (deleteFluidLog s now logId userId).2

/-- Execute a sequence of operations left to right. -/
def runOps (s : Store) (ops : List Op) : Store := ops.foldl applyOp s

/-- The zod input validation relevant to the totals: logged portions and
    volumes are positive. -/
def ValidOp : Op → Prop
  | .food _ input => 0 < input.portion_size
  | .fluid _ input => 0 < input.volume
  | _ => True

/-- An initial state: no logs and no summaries yet; food items satisfy
    their schema (nonnegative per-100g rates). -/
def InitState (s : Store) : Prop :=
  s.food_logs = [] ∧ s.fluid_logs = [] ∧ s.daily_summaries = [] ∧
    ∀ f ∈ s.food_items, foodItemValid f

section ListLemmas

variable {α : Type}

/-- A head of a filtered list is a member satisfying the filter. -/
lemma head_filter_spec {p : α → Bool} {l : List α} {t : α}
    (h : (l.filter p).head? = some t) : t ∈ l ∧ p t = true := by
  have ht : t ∈ l.filter p := by
    cases hf : l.filter p with
    | nil => rw [hf] at h; cases h
    | cons a as =>
        rw [hf] at h
        simp only [List.head?_cons, Option.some.injEq] at h
        subst h; exact List.mem_cons_self a as
  exact ⟨(List.mem_filter.mp ht).1, (List.mem_filter.mp ht).2⟩

/-- If all elements satisfying q share one id and ids are duplicate-free,
    the q-filtered list has at most one element; with a head it is a singleton. -/
lemma filter_eq_singleton_of_nodup (idf : α → Nat) {q : α → Bool} {l : List α} {t : α}
    (hn : (l.map idf).Nodup)
    (hid : ∀ x y : α, q x = true → q y = true → idf x = idf y)
    (hh : (l.filter q).head? = some t) : l.filter q = [t] := by
  have hsub : ((l.filter q).map idf).Nodup :=
    hn.sublist (List.Sublist.map idf (List.filter_sublist l))
  cases hf : l.filter q with
  | nil => rw [hf] at hh; cases hh
  | cons a as =>
      rw [hf] at hh
      simp only [List.head?_cons, Option.some.injEq] at hh
      subst hh
      cases has : as with
      | nil => rfl
      | cons b bs =>
          exfalso
          rw [hf, has] at hsub
          simp only [List.map_cons, List.nodup_cons, List.mem_cons, List.mem_map] at hsub
          have hqa : q a = true := by
            have : a ∈ l.filter q := by rw [hf]; exact List.mem_cons_self _ _
            exact (List.mem_filter.mp this).2
          have hqb : q b = true := by
            have : b ∈ l.filter q := by
              rw [hf, has]; exact List.mem_cons_of_mem _ (List.mem_cons_self _ _)
            exact (List.mem_filter.mp this).2
          exact hsub.1 (Or.inl (hid a b hqa hqb))

/-- Mapping a key-preserving update commutes with a key filter. -/
lemma filter_map_comm (g : α → α) (p : α → Bool) (l : List α)
    (hpres : ∀ x, p (g x) = p x) : (l.map g).filter p = (l.filter p).map g := by
  induction l with
  | nil => rfl
  | cons a as ih =>
      simp only [List.map_cons, List.filter_cons, hpres a]
      cases h : p a <;> simp [h, ih]

/-- A map that fixes every element of a list is the identity on it. -/
lemma map_id_of_fixed (g : α → α) (l : List α) (h : ∀ x ∈ l, g x = x) :
    l.map g = l := by
  induction l with
  | nil => rfl
  | cons a as ih =>
      simp only [List.map_cons, h a (List.mem_cons_self a as)]
      rw [ih (fun x hx => h x (List.mem_cons_of_mem a hx))]

/-- A key-preserving update that fixes all elements matching a key leaves
    that key filter unchanged. -/
lemma filter_map_fixed (g : α → α) (p : α → Bool) (l : List α)
    (hpres : ∀ x, p (g x) = p x) (hfix : ∀ x ∈ l, p x = true → g x = x) :
    (l.map g).filter p = l.filter p := by
  rw [filter_map_comm g p l hpres]
  exact map_id_of_fixed g (l.filter p)
    (fun x hx => hfix x (List.mem_filter.mp hx).1 (List.mem_filter.mp hx).2)

/-- Removing the unique q-element from a list removes its value from the
    p-filtered sum, provided it matches p. -/
lemma sum_filter_remove (f : α → ℚ) (p q : α → Bool) :
    ∀ (l : List α) (t : α), l.filter q = [t] → p t = true →
    (((l.filter (fun x => !(q x))).filter p).map f).sum =
      ((l.filter p).map f).sum - f t := by
  intro l
  induction l with
  | nil => intro t ht; simp at ht
  | cons a as ih =>
      intro t ht hpt
      by_cases hqa : q a = true
      · have h1 : a = t ∧ as.filter q = [] := by
          rw [List.filter_cons_of_pos hqa] at ht
          exact ⟨List.head_eq_of_cons_eq ht, List.tail_eq_of_cons_eq ht⟩
        obtain ⟨rfl, hrest⟩ := h1
        have hnone : ∀ x ∈ as, q x = false := by
          intro x hx
          by_contra hqx
          have : x ∈ as.filter q := List.mem_filter.mpr ⟨hx, by
            cases h : q x
            · exact absurd h hqx
            · rfl⟩
          rw [hrest] at this; cases this
        have heq : as.filter (fun x => !(q x)) = as :=
          List.filter_eq_self.mpr (fun x hx => by rw [hnone x hx]; rfl)
        rw [List.filter_cons_of_neg (by rw [hqa]; simp), heq,
          List.filter_cons_of_pos hpt]
        simp
      · have hqa' : q a = false := by cases h : q a; rfl; exact absurd h hqa
        have ht' : as.filter q = [t] := by
          rw [List.filter_cons_of_neg (by rw [hqa']; simp)] at ht
          exact ht
        have hrec := ih t ht' hpt
        rw [List.filter_cons_of_pos (by rw [hqa']; rfl)]
        by_cases hpa : p a = true
        · rw [List.filter_cons_of_pos hpa, List.filter_cons_of_pos hpa]
          simp only [List.map_cons, List.sum_cons, hrec]
          ring
        · have hpa' : p a = false := by cases h : p a; rfl; exact absurd h hpa
          rw [List.filter_cons_of_neg (by rw [hpa']; simp),
            List.filter_cons_of_neg (by rw [hpa']; simp)]
          exact hrec

/-- Removing the unique q-element leaves a key filter it does not match
    unchanged. -/
lemma filter_remove_other (p q : α → Bool) (l : List α) (t : α)
    (ht : l.filter q = [t]) (hpt : p t = false) :
    (l.filter (fun x => !(q x))).filter p = l.filter p := by
  have hmem : ∀ x ∈ l, q x = true → x = t := by
    intro x hx hqx
    have : x ∈ l.filter q := List.mem_filter.mpr ⟨hx, hqx⟩
    rw [ht] at this
    simpa using this
  rw [List.filter_filter]
  apply List.filter_congr
  intro x hx
  cases hqx : q x
  · simp
  · have : x = t := hmem x hx hqx
    subst this
    simp [hpt]

end ListLemmas

section TimestampLemmas

/-- tsLtB is irreflexive. -/
lemma tsLtB_irrefl (a : Timestamp) : tsLtB a a = false := by
  simp [tsLtB]

/-- Anything at least as late as y is not strictly earlier than anything
    strictly earlier than y. -/
lemma tsLtB_false_of_lt_ge {x y z : Timestamp} (h1 : tsLtB x y = true)
    (h2 : tsLtB z y = false) : tsLtB z x = false := by
  simp only [tsLtB, Bool.or_eq_true, Bool.and_eq_true, decide_eq_true_eq,
    Bool.or_eq_false_iff, Bool.and_eq_false_iff, decide_eq_false_iff_not,
    beq_iff_eq, beq_eq_false_iff_ne] at h1 h2 ⊢
  constructor
  · rcases h1 with h1 | ⟨h1e, h1m⟩ <;> omega
  · rcases h1 with h1 | ⟨h1e, h1m⟩ <;> rcases h2.2 with h2m | h2m <;> omega

/-- Not-strictly-earlier is transitive. -/
lemma tsLtB_false_trans2 {x y z : Timestamp} (h1 : tsLtB x y = false)
    (h2 : tsLtB y z = false) : tsLtB x z = false := by
  simp only [tsLtB, Bool.or_eq_false_iff, Bool.and_eq_false_iff,
    decide_eq_false_iff_not, beq_eq_false_iff_ne] at h1 h2 ⊢
  constructor
  · omega
  · rcases h1.2 with h1m | h1m <;> rcases h2.2 with h2m | h2m <;> omega

end TimestampLemmas

section LatestByLemmas

variable {α : Type}

/-- Specification of the latestBy fold: starting from an accumulator, the
    result is the accumulator or a list member, and is never strictly
    earlier than the accumulator or any list member. -/
lemma latestBy_go_spec (f : α → Timestamp) :
    ∀ (l : List α) (acc m : α),
    (l.foldl (fun acc x =>
      match acc with
      | none => some x
      | some m => if tsLtB (f m) (f x) then some x else some m) (some acc)) = some m →
    (m = acc ∨ m ∈ l) ∧ (tsLtB (f m) (f acc) = false) ∧
      (∀ x ∈ l, tsLtB (f m) (f x) = false) := by
  intro l
  induction l with
  | nil =>
      intro acc m h
      simp only [List.foldl_nil, Option.some.injEq] at h
      subst h
      exact ⟨Or.inl rfl, tsLtB_irrefl _, by intro x hx; cases hx⟩
  | cons a as ih =>
      intro acc m h
      simp only [List.foldl_cons] at h
      by_cases hlt : tsLtB (f acc) (f a) = true
      · rw [if_pos hlt] at h
        obtain ⟨hmem, hacc, hall⟩ := ih a m h
        refine ⟨?_, ?_, ?_⟩
        · rcases hmem with rfl | hm
          · exact Or.inr (List.mem_cons_self _ _)
          · exact Or.inr (List.mem_cons_of_mem _ hm)
        · exact tsLtB_false_of_lt_ge hlt hacc
        · intro x hx
          rcases List.mem_cons.mp hx with rfl | hx'
          · exact hacc
          · exact hall x hx'
      · have hlt' : tsLtB (f acc) (f a) = false := by
          cases hv : tsLtB (f acc) (f a); rfl; exact absurd hv hlt
        rw [hlt'] at h
        simp only [Bool.false_eq_true, if_false] at h
        obtain ⟨hmem, hacc, hall⟩ := ih acc m h
        refine ⟨?_, hacc, ?_⟩
        · rcases hmem with rfl | hm
          · exact Or.inl rfl
          · exact Or.inr (List.mem_cons_of_mem _ hm)
        · intro x hx
          rcases List.mem_cons.mp hx with rfl | hx'
          · rcases hmem with rfl | _
            · exact hlt'
            · exact tsLtB_false_trans2 hacc hlt'
          · exact hall x hx'

/-- A latestBy result is a member of the list. -/
lemma latestBy_mem (f : α → Timestamp) (l : List α) (m : α)
    (h : latestBy f l = some m) : m ∈ l := by
  unfold latestBy at h
  cases l with
  | nil => cases h
  | cons a as =>
      simp only [List.foldl_cons] at h
      obtain ⟨hmem, _, _⟩ := latestBy_go_spec f as a m h
      rcases hmem with rfl | hm
      · exact List.mem_cons_self _ _
      · exact List.mem_cons_of_mem _ hm

/-- A latestBy result carries a maximal timestamp among the list members. -/
lemma latestBy_maximal (f : α → Timestamp) (l : List α) (m : α)
    (h : latestBy f l = some m) : ∀ x ∈ l, tsLtB (f m) (f x) = false := by
  unfold latestBy at h
  cases l with
  | nil => cases h
  | cons a as =>
      simp only [List.foldl_cons] at h
      obtain ⟨_, hacc, hall⟩ := latestBy_go_spec f as a m h
      intro x hx
      rcases List.mem_cons.mp hx with rfl | hx'
      · exact hacc
      · exact hall x hx'

/-- latestBy of a nonempty list is some element. -/
lemma latestBy_isSome (f : α → Timestamp) (l : List α) (h : l ≠ []) :
    ∃ m, latestBy f l = some m := by
  cases hl : latestBy f l with
  | some m => exact ⟨m, rfl⟩
  | none =>
      exfalso
      cases l with
      | nil => exact h rfl
      | cons a as =>
          unfold latestBy at hl
          simp only [List.foldl_cons] at hl
          have : ∀ (xs : List α) (acc : α),
              (xs.foldl (fun acc x =>
                match acc with
                | none => some x
                | some m => if tsLtB (f m) (f x) then some x else some m)
                  (some acc)) ≠ none := by
            intro xs
            induction xs with
            | nil => intro acc hc; cases hc
            | cons b bs ihb =>
                intro acc
                simp only [List.foldl_cons]
                by_cases hlt : tsLtB (f acc) (f b) = true
                · rw [if_pos hlt]; exact ihb b
                · have hlt' : tsLtB (f acc) (f b) = false := by
                    cases hv : tsLtB (f acc) (f b); rfl; exact absurd hv hlt
                  rw [hlt']
                  simp only [Bool.false_eq_true, if_false]
                  exact ihb acc
          exact this as a hl

end LatestByLemmas

section TransferLemmas

variable {α : Type}

/-- Filtering after appending an element that matches the filter. -/
lemma filter_append_pos (p : α → Bool) (l : List α) (x : α) (h : p x = true) :
    (l ++ [x]).filter p = l.filter p ++ [x] := by
  rw [List.filter_append]
  simp [List.filter_cons, h]

/-- Filtering after appending an element that fails the filter. -/
lemma filter_append_neg (p : α → Bool) (l : List α) (x : α) (h : p x = false) :
    (l ++ [x]).filter p = l.filter p := by
  rw [List.filter_append]
  simp [List.filter_cons, h]

/-- Appending a row with a fresh id keeps the mapped ids duplicate-free. -/
lemma nodup_map_append (idf : α → Nat) (l : List α) (x : α) (n : Nat)
    (hn : (l.map idf).Nodup) (hfresh : ∀ y ∈ l, idf y < n) (hx : idf x = n) :
    ((l ++ [x]).map idf).Nodup := by
  rw [List.map_append, List.map_singleton]
  rw [List.nodup_append]
  refine ⟨hn, List.nodup_singleton _, ?_⟩
  intro a ha hb
  simp only [List.mem_singleton] at hb
  obtain ⟨y, hy, rfl⟩ := List.mem_map.mp ha
  have := hfresh y hy
  rw [hb, hx] at this
  exact absurd this (lt_irrefl n)

/-- Appending a row with id n keeps all ids below n + 1. -/
lemma fresh_append (idf : α → Nat) (l : List α) (x : α) (n : Nat)
    (hfresh : ∀ y ∈ l, idf y < n) (hx : idf x = n) :
    ∀ y ∈ l ++ [x], idf y < n + 1 := by
  intro y hy
  rcases List.mem_append.mp hy with h | h
  · exact Nat.lt_succ_of_lt (hfresh y h)
  · simp only [List.mem_singleton] at h
    subst h
    rw [hx]
    exact Nat.lt_succ_self n

/-- An id-preserving row update keeps the mapped ids unchanged. -/
lemma map_id_comp (idf : α → Nat) (g : α → α) (l : List α)
    (hid : ∀ x, idf (g x) = idf x) : (l.map g).map idf = l.map idf := by
  rw [List.map_map]
  exact List.map_congr_left (fun x _ => hid x)

/-- SummOk transfers along equal key filters and equal items. -/
lemma SummOk_transfer {s s2 : Store} (userId : Nat) (d : Int)
    (hit : s2.food_items = s.food_items)
    (hfo : s2.food_logs.filter (foodDayKey userId d) =
      s.food_logs.filter (foodDayKey userId d))
    (hfl : s2.fluid_logs.filter (fluidDayKey userId d) =
      s.fluid_logs.filter (fluidDayKey userId d))
    (hsm : s2.daily_summaries.filter (summKey userId d) =
      s.daily_summaries.filter (summKey userId d))
    (h : SummOk s userId d) : SummOk s2 userId d := by
  unfold SummOk foodSum fluidSum at h ⊢
  rw [hsm, hfo, hfl, hit]
  exact h

end TransferLemmas

/-- The key of the new fluid log row. -/
lemma fluidDayKey_newLog (input : LogFluidInput) (now : Timestamp) (nid : Nat) :
    fluidDayKey input.user_id (dateOf (input.consumed_at.getD now))
      { id := nid, user_id := input.user_id, fluid_type := input.fluid_type,
        volume := input.volume, consumed_at := input.consumed_at.getD now,
        created_at := now } = true := by
  simp [fluidDayKey]

/-- The new fluid log row fails every other day key. -/
lemma fluidDayKey_newLog_other (input : LogFluidInput) (now : Timestamp) (nid : Nat)
    {u' : Nat} {d' : Int}
    (hud : ¬(u' = input.user_id ∧ d' = dateOf (input.consumed_at.getD now))) :
    fluidDayKey u' d'
      { id := nid, user_id := input.user_id, fluid_type := input.fluid_type,
        volume := input.volume, consumed_at := input.consumed_at.getD now,
        created_at := now } = false := by
  simp only [fluidDayKey, Bool.and_eq_false_iff, beq_eq_false_iff_ne, ne_eq]
  rcases not_and_or.mp hud with h | h
  · exact Or.inl (fun hc => h hc.symm)
  · exact Or.inr (fun hc => h hc.symm)

/-- A summary-total rewrite preserves the summary key. -/
lemma summKey_pres_fluid (uid : Nat) (d : Int) (cur : DailySummaryRow)
    (v : ℚ) (now : Timestamp) :
    ∀ x : DailySummaryRow, summKey uid d
      (if x.id == cur.id then
        { x with total_fluid := v, updated_at := now } else x) = summKey uid d x := by
  intro x
  by_cases hx : (x.id == cur.id) = true
  · simp [summKey, hx]
  · simp only [Bool.not_eq_true] at hx
    simp [hx]

/-- Members of a singleton filter satisfy the key. -/
lemma key_of_filter_singleton {α : Type} {p : α → Bool} {l : List α} {r : α}
    (h : l.filter p = [r]) : r ∈ l ∧ p r = true := by
  have : r ∈ l.filter p := by rw [h]; exact List.mem_cons_self _ _
  exact ⟨(List.mem_filter.mp this).1, (List.mem_filter.mp this).2⟩

/-- Invariant preservation for the update branch of logFluid. -/
lemma logFluid_update_inv (s : Store) (now : Timestamp) (input : LogFluidInput)
    (cur : DailySummaryRow) (hs : Inv s) (hpos : 0 ≤ input.volume)
    (hsm : (s.daily_summaries.filter
      (summKey input.user_id (dateOf (input.consumed_at.getD now)))).head? = some cur) :
    Inv { s with
      fluid_logs := s.fluid_logs ++
        [{ id := s.next_fluid_log_id, user_id := input.user_id,
           fluid_type := input.fluid_type, volume := input.volume,
           consumed_at := input.consumed_at.getD now, created_at := now }]
      next_fluid_log_id := s.next_fluid_log_id + 1
      daily_summaries := s.daily_summaries.map (fun r =>
        if r.id == cur.id then
          { r with total_fluid := cur.total_fluid + input.volume, updated_at := now }
        else r) } := by
  rcases hs.recon input.user_id (dateOf (input.consumed_at.getD now)) with
    ⟨hnil, _, _⟩ | ⟨r, hf, hcal, hprot, hcarb, hfat, hflu⟩
  · rw [hnil] at hsm; cases hsm
  have hrc : r = cur := by rw [hf] at hsm; simpa using hsm
  subst hrc
  have hrmem := key_of_filter_singleton hf
  refine Inv.mk ?_ hs.food_nodup hs.food_fresh ?_ ?_ ?_ ?_ hs.food_nonneg ?_ hs.items_ok
  · intro u' d'
    by_cases hud : u' = input.user_id ∧ d' = dateOf (input.consumed_at.getD now)
    · obtain ⟨rfl, rfl⟩ := hud
      refine Or.inr ⟨{ r with total_fluid := r.total_fluid + input.volume, updated_at := now }, ?_, ?_, ?_, ?_, ?_, ?_⟩
      · show (s.daily_summaries.map _).filter _ = _
        rw [filter_map_comm _ _ _
          (summKey_pres_fluid _ _ r (r.total_fluid + input.volume) now), hf]
        simp
      · simpa using hcal
      · simpa using hprot
      · simpa using hcarb
      · simpa using hfat
      · show r.total_fluid + input.volume = fluidSum (s.fluid_logs ++ _) _ _
        unfold fluidSum
        rw [filter_append_pos _ _ _ (fluidDayKey_newLog input now s.next_fluid_log_id),
          List.map_append, List.sum_append]
        unfold fluidSum at hflu
        rw [hflu]
        simp
    · have hfl2 : List.filter (fluidDayKey u' d') (s.fluid_logs ++
          [{ id := s.next_fluid_log_id, user_id := input.user_id,
             fluid_type := input.fluid_type, volume := input.volume,
             consumed_at := input.consumed_at.getD now, created_at := now }]) =
          List.filter (fluidDayKey u' d') s.fluid_logs :=
        filter_append_neg _ _ _ (fluidDayKey_newLog_other input now s.next_fluid_log_id hud)
      have hsm2 : List.filter (summKey u' d') (s.daily_summaries.map (fun x =>
          if x.id == r.id then
            { x with total_fluid := r.total_fluid + input.volume, updated_at := now }
          else x)) = List.filter (summKey u' d') s.daily_summaries := by
        refine filter_map_fixed _ _ _
          (summKey_pres_fluid _ _ r (r.total_fluid + input.volume) now) ?_
        intro x hx hpx
        have hne : (x.id == r.id) = false := by
          by_contra hc
          simp only [Bool.not_eq_false, beq_iff_eq] at hc
          have hxr : x = r := List.inj_on_of_nodup_map hs.summ_nodup hx hrmem.1 hc
          subst hxr
          have hk := hrmem.2
          simp only [summKey, Bool.and_eq_true, beq_iff_eq] at hk hpx
          exact hud ⟨by rw [← hpx.1]; exact hk.1, by rw [← hpx.2]; exact hk.2⟩
        simp [hne]
      exact SummOk_transfer (s := s) u' d' rfl rfl hfl2 hsm2 (hs.recon u' d')
  · exact nodup_map_append (fun l : FluidLogRow => l.id) _ _ _ hs.fluid_nodup hs.fluid_fresh rfl
  · exact fresh_append (fun l : FluidLogRow => l.id) _ _ _ hs.fluid_fresh rfl
  · show ((s.daily_summaries.map _).map _).Nodup
    rw [map_id_comp (fun r : DailySummaryRow => r.id) _ _ (fun x => by
      by_cases hx : (x.id == r.id) = true <;> simp [hx])]
    exact hs.summ_nodup
  · intro x hx
    obtain ⟨y, hy, rfl⟩ := List.mem_map.mp hx
    have hid : (if y.id == r.id then
        { y with total_fluid := r.total_fluid + input.volume, updated_at := now }
      else y).id = y.id := by
      by_cases hy2 : (y.id == r.id) = true <;> simp [hy2]
    rw [hid]
    exact hs.summ_fresh y hy
  · intro l hl
    rcases List.mem_append.mp hl with h | h
    · exact hs.fluid_nonneg l h
    · simp only [List.mem_singleton] at h
      subst h
      exact hpos

/-- Invariant preservation for the insert branch of logFluid. -/
lemma logFluid_insert_inv (s : Store) (now : Timestamp) (input : LogFluidInput)
    (hs : Inv s) (hpos : 0 ≤ input.volume)
    (hsm : (s.daily_summaries.filter
      (summKey input.user_id (dateOf (input.consumed_at.getD now)))).head? = none) :
    Inv { s with
      fluid_logs := s.fluid_logs ++
        [{ id := s.next_fluid_log_id, user_id := input.user_id,
           fluid_type := input.fluid_type, volume := input.volume,
           consumed_at := input.consumed_at.getD now, created_at := now }]
      next_fluid_log_id := s.next_fluid_log_id + 1
      daily_summaries := s.daily_summaries ++
        [{ id := s.next_summary_id, user_id := input.user_id,
           summary_date := dateOf (input.consumed_at.getD now),
           total_calories := 0, total_protein := 0, total_carbs := 0,
           total_fats := 0, total_fluid := input.volume,
           created_at := now, updated_at := now }]
      next_summary_id := s.next_summary_id + 1 } := by
  have hempty : s.daily_summaries.filter
      (summKey input.user_id (dateOf (input.consumed_at.getD now))) = [] :=
    List.head?_eq_none_iff.mp hsm
  rcases hs.recon input.user_id (dateOf (input.consumed_at.getD now)) with
    ⟨_, hfo, hfl⟩ | ⟨r, hf, _⟩
  swap
  · rw [hf] at hempty; cases hempty
  refine Inv.mk ?_ hs.food_nodup hs.food_fresh ?_ ?_ ?_ ?_ hs.food_nonneg ?_ hs.items_ok
  · intro u' d'
    by_cases hud : u' = input.user_id ∧ d' = dateOf (input.consumed_at.getD now)
    · obtain ⟨rfl, rfl⟩ := hud
      refine Or.inr ⟨{ id := s.next_summary_id, user_id := input.user_id, summary_date := dateOf (input.consumed_at.getD now), total_calories := 0, total_protein := 0, total_carbs := 0, total_fats := 0, total_fluid := input.volume, created_at := now, updated_at := now }, ?_, ?_, ?_, ?_, ?_, ?_⟩
      · show (s.daily_summaries ++ _).filter _ = _
        rw [filter_append_pos _ _ _ (by simp [summKey]), hempty]
        rfl
      · show (0 : ℚ) = foodSum _ _ _ _ _
        unfold foodSum
        rw [hfo]
        simp
      · show (0 : ℚ) = foodSum _ _ _ _ _
        unfold foodSum
        rw [hfo]
        simp
      · show (0 : ℚ) = foodSum _ _ _ _ _
        unfold foodSum
        rw [hfo]
        simp
      · show (0 : ℚ) = foodSum _ _ _ _ _
        unfold foodSum
        rw [hfo]
        simp
      · show input.volume = fluidSum (s.fluid_logs ++ _) _ _
        unfold fluidSum
        rw [filter_append_pos _ _ _ (fluidDayKey_newLog input now s.next_fluid_log_id),
          hfl]
        simp
    · have hfl2 : List.filter (fluidDayKey u' d') (s.fluid_logs ++
          [{ id := s.next_fluid_log_id, user_id := input.user_id,
             fluid_type := input.fluid_type, volume := input.volume,
             consumed_at := input.consumed_at.getD now, created_at := now }]) =
          List.filter (fluidDayKey u' d') s.fluid_logs :=
        filter_append_neg _ _ _ (fluidDayKey_newLog_other input now s.next_fluid_log_id hud)
      have hsm2 : List.filter (summKey u' d') (s.daily_summaries ++
          [{ id := s.next_summary_id, user_id := input.user_id,
             summary_date := dateOf (input.consumed_at.getD now),
             total_calories := 0, total_protein := 0, total_carbs := 0,
             total_fats := 0, total_fluid := input.volume,
             created_at := now, updated_at := now }]) =
          List.filter (summKey u' d') s.daily_summaries := by
        refine filter_append_neg _ _ _ ?_
        simp only [summKey, Bool.and_eq_false_iff, beq_eq_false_iff_ne, ne_eq]
        rcases not_and_or.mp hud with h | h
        · exact Or.inl (fun hc => h hc.symm)
        · exact Or.inr (fun hc => h hc.symm)
      exact SummOk_transfer (s := s) u' d' rfl rfl hfl2 hsm2 (hs.recon u' d')
  · exact nodup_map_append (fun l : FluidLogRow => l.id) _ _ _ hs.fluid_nodup hs.fluid_fresh rfl
  · exact fresh_append (fun l : FluidLogRow => l.id) _ _ _ hs.fluid_fresh rfl
  · exact nodup_map_append (fun r : DailySummaryRow => r.id) _ _ _ hs.summ_nodup hs.summ_fresh rfl
  · exact fresh_append (fun r : DailySummaryRow => r.id) _ _ _ hs.summ_fresh rfl
  · intro l hl
    rcases List.mem_append.mp hl with h | h
    · exact hs.fluid_nonneg l h
    · simp only [List.mem_singleton] at h
      subst h
      exact hpos

/-- logFluid preserves the invariant. -/
theorem logFluid_inv (s : Store) (now : Timestamp) (input : LogFluidInput)
    (hs : Inv s) (hpos : 0 ≤ input.volume) : Inv (logFluid s now input).2 := by
  unfold logFluid
  cases hu : (s.users.filter (fun u => u.id == input.user_id)).head? with
  | none => exact hs
  | some u =>
    dsimp only
    cases hsm : (List.filter
        (summKey input.user_id (dateOf (input.consumed_at.getD now)))
        s.daily_summaries).head? with
    | some cur =>
        dsimp only
        exact logFluid_update_inv s now input cur hs hpos hsm
    | none =>
        dsimp only
        exact logFluid_insert_inv s now input hs hpos hsm

/-- The key of the new food log row. -/
lemma foodDayKey_newLog (input : LogFoodInput) (now : Timestamp) (nid : Nat) :
    foodDayKey input.user_id (dateOf (input.consumed_at.getD now))
      { id := nid, user_id := input.user_id, food_item_id := input.food_item_id,
        portion_size := input.portion_size, consumed_at := input.consumed_at.getD now,
        created_at := now } = true := by
  simp [foodDayKey]

/-- The new food log row fails every other day key. -/
lemma foodDayKey_newLog_other (input : LogFoodInput) (now : Timestamp) (nid : Nat)
    {u' : Nat} {d' : Int}
    (hud : ¬(u' = input.user_id ∧ d' = dateOf (input.consumed_at.getD now))) :
    foodDayKey u' d'
      { id := nid, user_id := input.user_id, food_item_id := input.food_item_id,
        portion_size := input.portion_size, consumed_at := input.consumed_at.getD now,
        created_at := now } = false := by
  simp only [foodDayKey, Bool.and_eq_false_iff, beq_eq_false_iff_ne, ne_eq]
  rcases not_and_or.mp hud with h | h
  · exact Or.inl (fun hc => h hc.symm)
  · exact Or.inr (fun hc => h hc.symm)

/-- A four-nutrient summary rewrite preserves the summary key. -/
lemma summKey_pres_food (uid : Nat) (d : Int) (cur : DailySummaryRow)
    (a b c e : ℚ) (now : Timestamp) :
    ∀ x : DailySummaryRow, summKey uid d
      (if x.id == cur.id then
        { x with
          total_calories := x.total_calories + a
          total_protein := x.total_protein + b
          total_carbs := x.total_carbs + c
          total_fats := x.total_fats + e
          updated_at := now }
      else x) = summKey uid d x := by
  intro x
  by_cases hx : (x.id == cur.id) = true
  · simp [summKey, hx]
  · simp only [Bool.not_eq_true] at hx
    simp [hx]

/-- The contribution of the new food log is the per-100g rate scaled by
    portion / 100 of the item found by the handler. -/
lemma contrib_newLog (items : List FoodItem) (rate : FoodItem → ℚ)
    (input : LogFoodInput) (now : Timestamp) (nid : Nat) (item : FoodItem)
    (hi : (items.filter (fun f => f.id == input.food_item_id)).head? = some item) :
    contrib items rate
      { id := nid, user_id := input.user_id, food_item_id := input.food_item_id,
        portion_size := input.portion_size, consumed_at := input.consumed_at.getD now,
        created_at := now } = rate item * (input.portion_size / 100) := by
  unfold contrib itemFor
  dsimp only
  rw [hi]

/-- Invariant preservation for the update branch of logFood. -/
lemma logFood_update_inv (s : Store) (now : Timestamp) (input : LogFoodInput)
    (item : FoodItem) (cur : DailySummaryRow) (hs : Inv s)
    (hpos : 0 ≤ input.portion_size)
    (hi : (s.food_items.filter (fun f => f.id == input.food_item_id)).head? = some item)
    (hsm : (s.daily_summaries.filter
      (summKey input.user_id (dateOf (input.consumed_at.getD now)))).head? = some cur) :
    Inv { s with
      food_logs := s.food_logs ++
        [{ id := s.next_food_log_id, user_id := input.user_id,
           food_item_id := input.food_item_id, portion_size := input.portion_size,
           consumed_at := input.consumed_at.getD now, created_at := now }]
      next_food_log_id := s.next_food_log_id + 1
      daily_summaries := s.daily_summaries.map (fun r =>
        if r.id == cur.id then
          { r with
            total_calories := r.total_calories + item.calories_per_100g * (input.portion_size / 100)
            total_protein := r.total_protein + item.protein_per_100g * (input.portion_size / 100)
            total_carbs := r.total_carbs + item.carbs_per_100g * (input.portion_size / 100)
            total_fats := r.total_fats + item.fats_per_100g * (input.portion_size / 100)
            updated_at := now }
        else r) } := by
  rcases hs.recon input.user_id (dateOf (input.consumed_at.getD now)) with
    ⟨hnil, _, _⟩ | ⟨r, hf, hcal, hprot, hcarb, hfat, hflu⟩
  · rw [hnil] at hsm; cases hsm
  have hrc : r = cur := by rw [hf] at hsm; simpa using hsm
  subst hrc
  have hrmem := key_of_filter_singleton hf
  refine Inv.mk ?_ ?_ ?_ hs.fluid_nodup hs.fluid_fresh ?_ ?_ ?_ hs.fluid_nonneg hs.items_ok
  · intro u' d'
    by_cases hud : u' = input.user_id ∧ d' = dateOf (input.consumed_at.getD now)
    · obtain ⟨rfl, rfl⟩ := hud
      refine Or.inr ⟨{ r with total_calories := r.total_calories + item.calories_per_100g * (input.portion_size / 100), total_protein := r.total_protein + item.protein_per_100g * (input.portion_size / 100), total_carbs := r.total_carbs + item.carbs_per_100g * (input.portion_size / 100), total_fats := r.total_fats + item.fats_per_100g * (input.portion_size / 100), updated_at := now }, ?_, ?_, ?_, ?_, ?_, ?_⟩
      · show (s.daily_summaries.map _).filter _ = _
        rw [filter_map_comm _ _ _ (summKey_pres_food _ _ r
          (item.calories_per_100g * (input.portion_size / 100))
          (item.protein_per_100g * (input.portion_size / 100))
          (item.carbs_per_100g * (input.portion_size / 100))
          (item.fats_per_100g * (input.portion_size / 100)) now), hf]
        simp
      · show r.total_calories + _ = _
        unfold foodSum
        rw [filter_append_pos _ _ _ (foodDayKey_newLog input now s.next_food_log_id),
          List.map_append, List.sum_append]
        unfold foodSum at hcal
        rw [hcal, List.map_singleton, List.sum_singleton,
          contrib_newLog _ _ _ _ _ _ hi]
      · show r.total_protein + _ = _
        unfold foodSum
        rw [filter_append_pos _ _ _ (foodDayKey_newLog input now s.next_food_log_id),
          List.map_append, List.sum_append]
        unfold foodSum at hprot
        rw [hprot, List.map_singleton, List.sum_singleton,
          contrib_newLog _ _ _ _ _ _ hi]
      · show r.total_carbs + _ = _
        unfold foodSum
        rw [filter_append_pos _ _ _ (foodDayKey_newLog input now s.next_food_log_id),
          List.map_append, List.sum_append]
        unfold foodSum at hcarb
        rw [hcarb, List.map_singleton, List.sum_singleton,
          contrib_newLog _ _ _ _ _ _ hi]
      · show r.total_fats + _ = _
        unfold foodSum
        rw [filter_append_pos _ _ _ (foodDayKey_newLog input now s.next_food_log_id),
          List.map_append, List.sum_append]
        unfold foodSum at hfat
        rw [hfat, List.map_singleton, List.sum_singleton,
          contrib_newLog _ _ _ _ _ _ hi]
      · exact hflu
    · have hfo2 : List.filter (foodDayKey u' d') (s.food_logs ++
          [{ id := s.next_food_log_id, user_id := input.user_id,
             food_item_id := input.food_item_id, portion_size := input.portion_size,
             consumed_at := input.consumed_at.getD now, created_at := now }]) =
          List.filter (foodDayKey u' d') s.food_logs :=
        filter_append_neg _ _ _ (foodDayKey_newLog_other input now s.next_food_log_id hud)
      have hsm2 : List.filter (summKey u' d') (s.daily_summaries.map (fun x =>
          if x.id == r.id then
            { x with
              total_calories := x.total_calories + item.calories_per_100g * (input.portion_size / 100)
              total_protein := x.total_protein + item.protein_per_100g * (input.portion_size / 100)
              total_carbs := x.total_carbs + item.carbs_per_100g * (input.portion_size / 100)
              total_fats := x.total_fats + item.fats_per_100g * (input.portion_size / 100)
              updated_at := now }
          else x)) = List.filter (summKey u' d') s.daily_summaries := by
        refine filter_map_fixed _ _ _ (summKey_pres_food _ _ r
          (item.calories_per_100g * (input.portion_size / 100))
          (item.protein_per_100g * (input.portion_size / 100))
          (item.carbs_per_100g * (input.portion_size / 100))
          (item.fats_per_100g * (input.portion_size / 100)) now) ?_
        intro x hx hpx
        have hne : (x.id == r.id) = false := by
          by_contra hc
          simp only [Bool.not_eq_false, beq_iff_eq] at hc
          have hxr : x = r := List.inj_on_of_nodup_map hs.summ_nodup hx hrmem.1 hc
          subst hxr
          have hk := hrmem.2
          simp only [summKey, Bool.and_eq_true, beq_iff_eq] at hk hpx
          exact hud ⟨by rw [← hpx.1]; exact hk.1, by rw [← hpx.2]; exact hk.2⟩
        simp [hne]
      exact SummOk_transfer (s := s) u' d' rfl hfo2 rfl hsm2 (hs.recon u' d')
  · exact nodup_map_append (fun l : FoodLogRow => l.id) _ _ _ hs.food_nodup hs.food_fresh rfl
  · exact fresh_append (fun l : FoodLogRow => l.id) _ _ _ hs.food_fresh rfl
  · show ((s.daily_summaries.map _).map _).Nodup
    rw [map_id_comp (fun r : DailySummaryRow => r.id) _ _ (fun x => by
      by_cases hx : (x.id == r.id) = true <;> simp [hx])]
    exact hs.summ_nodup
  · intro x hx
    obtain ⟨y, hy, rfl⟩ := List.mem_map.mp hx
    have hid : (if y.id == r.id then
        { y with
          total_calories := y.total_calories + item.calories_per_100g * (input.portion_size / 100)
          total_protein := y.total_protein + item.protein_per_100g * (input.portion_size / 100)
          total_carbs := y.total_carbs + item.carbs_per_100g * (input.portion_size / 100)
          total_fats := y.total_fats + item.fats_per_100g * (input.portion_size / 100)
          updated_at := now }
      else y).id = y.id := by
      by_cases hy2 : (y.id == r.id) = true <;> simp [hy2]
    rw [hid]
    exact hs.summ_fresh y hy
  · intro l hl
    rcases List.mem_append.mp hl with h | h
    · exact hs.food_nonneg l h
    · simp only [List.mem_singleton] at h
      subst h
      exact hpos

/-- Invariant preservation for the insert branch of logFood. -/
lemma logFood_insert_inv (s : Store) (now : Timestamp) (input : LogFoodInput)
    (item : FoodItem) (hs : Inv s) (hpos : 0 ≤ input.portion_size)
    (hi : (s.food_items.filter (fun f => f.id == input.food_item_id)).head? = some item)
    (hsm : (s.daily_summaries.filter
      (summKey input.user_id (dateOf (input.consumed_at.getD now)))).head? = none) :
    Inv { s with
      food_logs := s.food_logs ++
        [{ id := s.next_food_log_id, user_id := input.user_id,
           food_item_id := input.food_item_id, portion_size := input.portion_size,
           consumed_at := input.consumed_at.getD now, created_at := now }]
      next_food_log_id := s.next_food_log_id + 1
      daily_summaries := s.daily_summaries ++
        [{ id := s.next_summary_id, user_id := input.user_id,
           summary_date := dateOf (input.consumed_at.getD now),
           total_calories := item.calories_per_100g * (input.portion_size / 100),
           total_protein := item.protein_per_100g * (input.portion_size / 100),
           total_carbs := item.carbs_per_100g * (input.portion_size / 100),
           total_fats := item.fats_per_100g * (input.portion_size / 100),
           total_fluid := 0, created_at := now, updated_at := now }]
      next_summary_id := s.next_summary_id + 1 } := by
  have hempty : s.daily_summaries.filter
      (summKey input.user_id (dateOf (input.consumed_at.getD now))) = [] :=
    List.head?_eq_none_iff.mp hsm
  rcases hs.recon input.user_id (dateOf (input.consumed_at.getD now)) with
    ⟨_, hfo, hfl⟩ | ⟨r, hf, _⟩
  swap
  · rw [hf] at hempty; cases hempty
  refine Inv.mk ?_ ?_ ?_ hs.fluid_nodup hs.fluid_fresh ?_ ?_ ?_ hs.fluid_nonneg hs.items_ok
  · intro u' d'
    by_cases hud : u' = input.user_id ∧ d' = dateOf (input.consumed_at.getD now)
    · obtain ⟨rfl, rfl⟩ := hud
      refine Or.inr ⟨{ id := s.next_summary_id, user_id := input.user_id, summary_date := dateOf (input.consumed_at.getD now), total_calories := item.calories_per_100g * (input.portion_size / 100), total_protein := item.protein_per_100g * (input.portion_size / 100), total_carbs := item.carbs_per_100g * (input.portion_size / 100), total_fats := item.fats_per_100g * (input.portion_size / 100), total_fluid := 0, created_at := now, updated_at := now }, ?_, ?_, ?_, ?_, ?_, ?_⟩
      · show (s.daily_summaries ++ _).filter _ = _
        rw [filter_append_pos _ _ _ (by simp [summKey]), hempty]
        rfl
      · show item.calories_per_100g * (input.portion_size / 100) = _
        unfold foodSum
        rw [filter_append_pos _ _ _ (foodDayKey_newLog input now s.next_food_log_id),
          hfo, List.nil_append, List.map_singleton, List.sum_singleton,
          contrib_newLog _ _ _ _ _ _ hi]
      · show item.protein_per_100g * (input.portion_size / 100) = _
        unfold foodSum
        rw [filter_append_pos _ _ _ (foodDayKey_newLog input now s.next_food_log_id),
          hfo, List.nil_append, List.map_singleton, List.sum_singleton,
          contrib_newLog _ _ _ _ _ _ hi]
      · show item.carbs_per_100g * (input.portion_size / 100) = _
        unfold foodSum
        rw [filter_append_pos _ _ _ (foodDayKey_newLog input now s.next_food_log_id),
          hfo, List.nil_append, List.map_singleton, List.sum_singleton,
          contrib_newLog _ _ _ _ _ _ hi]
      · show item.fats_per_100g * (input.portion_size / 100) = _
        unfold foodSum
        rw [filter_append_pos _ _ _ (foodDayKey_newLog input now s.next_food_log_id),
          hfo, List.nil_append, List.map_singleton, List.sum_singleton,
          contrib_newLog _ _ _ _ _ _ hi]
      · show (0 : ℚ) = fluidSum _ _ _
        unfold fluidSum
        rw [hfl]
        rfl
    · have hfo2 : List.filter (foodDayKey u' d') (s.food_logs ++
          [{ id := s.next_food_log_id, user_id := input.user_id,
             food_item_id := input.food_item_id, portion_size := input.portion_size,
             consumed_at := input.consumed_at.getD now, created_at := now }]) =
          List.filter (foodDayKey u' d') s.food_logs :=
        filter_append_neg _ _ _ (foodDayKey_newLog_other input now s.next_food_log_id hud)
      have hsm2 : List.filter (summKey u' d') (s.daily_summaries ++
          [{ id := s.next_summary_id, user_id := input.user_id,
             summary_date := dateOf (input.consumed_at.getD now),
             total_calories := item.calories_per_100g * (input.portion_size / 100),
             total_protein := item.protein_per_100g * (input.portion_size / 100),
             total_carbs := item.carbs_per_100g * (input.portion_size / 100),
             total_fats := item.fats_per_100g * (input.portion_size / 100),
             total_fluid := 0, created_at := now, updated_at := now }]) =
          List.filter (summKey u' d') s.daily_summaries := by
        refine filter_append_neg _ _ _ ?_
        simp only [summKey, Bool.and_eq_false_iff, beq_eq_false_iff_ne, ne_eq]
        rcases not_and_or.mp hud with h | h
        · exact Or.inl (fun hc => h hc.symm)
        · exact Or.inr (fun hc => h hc.symm)
      exact SummOk_transfer (s := s) u' d' rfl hfo2 rfl hsm2 (hs.recon u' d')
  · exact nodup_map_append (fun l : FoodLogRow => l.id) _ _ _ hs.food_nodup hs.food_fresh rfl
  · exact fresh_append (fun l : FoodLogRow => l.id) _ _ _ hs.food_fresh rfl
  · exact nodup_map_append (fun r : DailySummaryRow => r.id) _ _ _ hs.summ_nodup hs.summ_fresh rfl
  · exact fresh_append (fun r : DailySummaryRow => r.id) _ _ _ hs.summ_fresh rfl
  · intro l hl
    rcases List.mem_append.mp hl with h | h
    · exact hs.food_nonneg l h
    · simp only [List.mem_singleton] at h
      subst h
      exact hpos

/-- logFood preserves the invariant. -/
theorem logFood_inv (s : Store) (now : Timestamp) (input : LogFoodInput)
    (hs : Inv s) (hpos : 0 ≤ input.portion_size) : Inv (logFood s now input).2 := by
  unfold logFood
  cases hu : (s.users.filter (fun u => u.id == input.user_id)).head? with
  | none => exact hs
  | some u =>
    dsimp only
    cases hi : (s.food_items.filter (fun f => f.id == input.food_item_id)).head? with
    | none => exact hs
    | some item =>
      dsimp only
      unfold updateDailySummary
      dsimp only
      cases hsm : (List.filter
          (summKey input.user_id (dateOf (input.consumed_at.getD now)))
          s.daily_summaries).head? with
      | some cur =>
          dsimp only
          exact logFood_update_inv s now input item cur hs hpos hi hsm
      | none =>
          dsimp only
          exact logFood_insert_inv s now input item hs hpos hi hsm

/-- Under duplicate-free ids, a filter whose matches share one id has at
    most one element. -/
lemma filter_at_most_one {α : Type} (idf : α → Nat) {q : α → Bool} {l : List α}
    (hn : (l.map idf).Nodup)
    (hid : ∀ x y : α, q x = true → q y = true → idf x = idf y) :
    l.filter q = [] ∨ ∃ t, l.filter q = [t] := by
  cases hf : l.filter q with
  | nil => exact Or.inl rfl
  | cons a as =>
      refine Or.inr ⟨a, ?_⟩
      have hsub : ((l.filter q).map idf).Nodup :=
        hn.sublist (List.Sublist.map idf (List.filter_sublist l))
      cases has : as with
      | nil => rfl
      | cons b bs =>
          exfalso
          rw [hf, has] at hsub
          simp only [List.map_cons, List.nodup_cons, List.mem_cons, List.mem_map] at hsub
          have hqa : q a = true := by
            have : a ∈ l.filter q := by rw [hf]; exact List.mem_cons_self _ _
            exact (List.mem_filter.mp this).2
          have hqb : q b = true := by
            have : b ∈ l.filter q := by
              rw [hf, has]; exact List.mem_cons_of_mem _ (List.mem_cons_self _ _)
            exact (List.mem_filter.mp this).2
          exact hsub.1 (Or.inl (hid a b hqa hqb))

/-- The summary rewrite used by deleteFluidLog preserves every summary key. -/
lemma summKey_pres_fluid_del (uid : Nat) (d : Int) (v : ℚ) (now : Timestamp) :
    ∀ x : DailySummaryRow, summKey uid d
      (if summKey uid d x then
        { x with total_fluid := v, updated_at := now } else x) = summKey uid d x := by
  intro x
  by_cases hx : summKey uid d x = true
  · simp only [hx, if_true]
    simp [summKey] at hx ⊢
    exact ⟨hx.1, hx.2⟩
  · simp only [Bool.not_eq_true] at hx
    simp [hx]

/-- The same, at an arbitrary key. -/
lemma summKey_pres_fluid_del_any (uid u2 : Nat) (d d2 : Int) (v : ℚ) (now : Timestamp) :
    ∀ x : DailySummaryRow, summKey u2 d2
      (if summKey uid d x then
        { x with total_fluid := v, updated_at := now } else x) = summKey u2 d2 x := by
  intro x
  by_cases hx : summKey uid d x = true
  · simp only [hx, if_true]
    simp [summKey]
  · simp only [Bool.not_eq_true] at hx
    simp [hx]

/-- The summary rewrite used by deleteFoodLog preserves every summary key. -/
lemma summKey_pres_food_del_any (uid u2 : Nat) (d d2 : Int) (a b c e : ℚ)
    (now : Timestamp) :
    ∀ x : DailySummaryRow, summKey u2 d2
      (if summKey uid d x then
        { x with
          total_calories := x.total_calories - a
          total_protein := x.total_protein - b
          total_carbs := x.total_carbs - c
          total_fats := x.total_fats - e
          updated_at := now }
      else x) = summKey u2 d2 x := by
  intro x
  by_cases hx : summKey uid d x = true
  · simp only [hx, if_true]
    simp [summKey]
  · simp only [Bool.not_eq_true] at hx
    simp [hx]

/-- deleteFluidLog preserves the invariant. -/
theorem deleteFluidLog_inv (s : Store) (now : Timestamp) (logId userId : Nat)
    (hs : Inv s) : Inv (deleteFluidLog s now logId userId).2 := by
  unfold deleteFluidLog
  cases hl : (s.fluid_logs.filter (fluidOwnKey logId userId)).head? with
  | none => exact hs
  | some l =>
    dsimp only
    have hflq : s.fluid_logs.filter (fluidOwnKey logId userId) = [l] :=
      filter_eq_singleton_of_nodup (fun x : FluidLogRow => x.id) hs.fluid_nodup
        (fun x y hx hy => by
          simp only [fluidOwnKey, Bool.and_eq_true, beq_iff_eq] at hx hy
          show x.id = y.id
          rw [hx.1, hy.1]) hl
    have hlmem := key_of_filter_singleton hflq
    have hluser : l.user_id = userId := by
      have := hlmem.2
      simp only [fluidOwnKey, Bool.and_eq_true, beq_iff_eq] at this
      exact this.2
    have hldk : fluidDayKey userId (dateOf l.consumed_at) l = true := by
      simp [fluidDayKey, hluser]
    rw [hflq]
    have hc : ¬((List.length [l] == 0) = true) := by simp
    rw [if_neg hc]
    rcases hs.recon userId (dateOf l.consumed_at) with
      ⟨hsnil, _, hflnil⟩ | ⟨r, hf, hcal, hprot, hcarb, hfat, hflu⟩
    · exfalso
      have : l ∈ s.fluid_logs.filter (fluidDayKey userId (dateOf l.consumed_at)) :=
        List.mem_filter.mpr ⟨hlmem.1, hldk⟩
      rw [hflnil] at this
      cases this
    cases hsm : (List.filter (summKey userId (dateOf l.consumed_at))
        s.daily_summaries).head? with
    | none =>
        exfalso
        rw [hf] at hsm
        cases hsm
    | some cur =>
        dsimp only
        have hrc : r = cur := by rw [hf] at hsm; simpa using hsm
        subst hrc
        -- the new per-key fluid total after removing the log
        have hremove := sum_filter_remove (fun x : FluidLogRow => x.volume)
          (fluidDayKey userId (dateOf l.consumed_at)) (fluidOwnKey logId userId)
          s.fluid_logs l hflq hldk
        have hnewsum : fluidSum (s.fluid_logs.filter
            (fun x => !(fluidOwnKey logId userId x))) userId (dateOf l.consumed_at) =
            r.total_fluid - l.volume := by
          unfold fluidSum
          rw [hremove]
          unfold fluidSum at hflu
          rw [hflu]
        have hnn : 0 ≤ r.total_fluid - l.volume := by
          rw [← hnewsum]
          unfold fluidSum
          apply List.sum_nonneg
          intro x hx
          obtain ⟨y, hy, rfl⟩ := List.mem_map.mp hx
          have : y ∈ s.fluid_logs :=
            List.mem_of_mem_filter (List.mem_of_mem_filter hy)
          exact hs.fluid_nonneg y this
        have hmax : max 0 (r.total_fluid - l.volume) = r.total_fluid - l.volume :=
          max_eq_right hnn
        refine Inv.mk ?_ hs.food_nodup hs.food_fresh ?_ ?_ ?_ ?_ hs.food_nonneg ?_ hs.items_ok
        · intro u' d'
          by_cases hud : u' = userId ∧ d' = dateOf l.consumed_at
          · obtain ⟨rfl, rfl⟩ := hud
            refine Or.inr ⟨{ r with total_fluid := max 0 (r.total_fluid - l.volume), updated_at := now }, ?_, ?_, ?_, ?_, ?_, ?_⟩
            · show (s.daily_summaries.map _).filter _ = _
              rw [filter_map_comm _ _ _
                (summKey_pres_fluid_del u' (dateOf l.consumed_at)
                  (max 0 (r.total_fluid - l.volume)) now), hf]
              have hkr := (key_of_filter_singleton hf).2
              simp [hkr]
            · simpa using hcal
            · simpa using hprot
            · simpa using hcarb
            · simpa using hfat
            · show max 0 (r.total_fluid - l.volume) = _
              rw [hmax, ← hnewsum]
          · have hpl : fluidDayKey u' d' l = false := by
              simp only [fluidDayKey, Bool.and_eq_false_iff, beq_eq_false_iff_ne, ne_eq]
              rcases not_and_or.mp hud with h | h
              · exact Or.inl (fun hc => h (by rw [← hc, hluser]))
              · exact Or.inr (fun hc => h hc.symm)
            have hfl2 : List.filter (fluidDayKey u' d')
                (s.fluid_logs.filter (fun x => !(fluidOwnKey logId userId x))) =
                List.filter (fluidDayKey u' d') s.fluid_logs :=
              filter_remove_other _ _ _ _ hflq hpl
            have hsm2 : List.filter (summKey u' d') (s.daily_summaries.map (fun x =>
                if summKey userId (dateOf l.consumed_at) x then
                  { x with total_fluid := max 0 (r.total_fluid - l.volume), updated_at := now }
                else x)) = List.filter (summKey u' d') s.daily_summaries := by
              refine filter_map_fixed _ _ _
                (summKey_pres_fluid_del_any userId u' (dateOf l.consumed_at) d'
                  (max 0 (r.total_fluid - l.volume)) now) ?_
              intro x hx hpx
              have hcond : summKey userId (dateOf l.consumed_at) x = false := by
                by_contra hc
                simp only [Bool.not_eq_false] at hc
                simp only [summKey, Bool.and_eq_true, beq_iff_eq] at hc hpx
                exact hud ⟨by rw [← hpx.1]; exact hc.1, by rw [← hpx.2]; exact hc.2⟩
              simp [hcond]
            exact SummOk_transfer (s := s) u' d' rfl rfl hfl2 hsm2 (hs.recon u' d')
        · exact hs.fluid_nodup.sublist
            (List.Sublist.map _ (List.filter_sublist _))
        · intro x hx
          exact hs.fluid_fresh x (List.mem_of_mem_filter hx)
        · show ((s.daily_summaries.map _).map _).Nodup
          rw [map_id_comp (fun x : DailySummaryRow => x.id) _ _ (fun x => by
            by_cases hx : summKey userId (dateOf l.consumed_at) x = true <;> simp [hx])]
          exact hs.summ_nodup
        · intro x hx
          obtain ⟨y, hy, rfl⟩ := List.mem_map.mp hx
          have hid : (if summKey userId (dateOf l.consumed_at) y then
              { y with total_fluid := max 0 (r.total_fluid - l.volume), updated_at := now }
            else y).id = y.id := by
            by_cases hy2 : summKey userId (dateOf l.consumed_at) y = true <;> simp [hy2]
          rw [hid]
          exact hs.summ_fresh y hy
        · intro x hx
          exact hs.fluid_nonneg x (List.mem_of_mem_filter hx)

/-- deleteFoodLog preserves the invariant. -/
theorem deleteFoodLog_inv (s : Store) (now : Timestamp) (logId userId : Nat)
    (hs : Inv s) : Inv (deleteFoodLog s now logId userId).2 := by
  unfold deleteFoodLog
  rcases filter_at_most_one (fun x : FoodLogRow => x.id)
      (q := foodOwnKey logId userId) (l := s.food_logs) hs.food_nodup
      (fun x y hx hy => by
        simp only [foodOwnKey, Bool.and_eq_true, beq_iff_eq] at hx hy
        show x.id = y.id
        rw [hx.1, hy.1]) with hfq | ⟨t, hfq⟩
  · rw [hfq]
    dsimp only [List.flatMap_nil, List.head?_nil]
    exact hs
  rw [hfq]
  dsimp only
  cases hif : (s.food_items.filter (fun f => f.id == t.food_item_id)).head? with
  | none =>
      have : (([t].flatMap (fun l => (s.food_items.filter
          (fun f => f.id == l.food_item_id)).map (fun f => (l, f)))).head?) =
          none := by
        simp only [List.flatMap_cons, List.flatMap_nil, List.append_nil]
        rw [List.head?_map, hif]
        rfl
      rw [this]
      exact hs
  | some item =>
      have hjh : (([t].flatMap (fun l => (s.food_items.filter
          (fun f => f.id == l.food_item_id)).map (fun f => (l, f)))).head?) =
          some (t, item) := by
        simp only [List.flatMap_cons, List.flatMap_nil, List.append_nil]
        rw [List.head?_map, hif]
        rfl
      rw [hjh]
      dsimp only
      have htmem := key_of_filter_singleton hfq
      have htuser : t.user_id = userId := by
        have := htmem.2
        simp only [foodOwnKey, Bool.and_eq_true, beq_iff_eq] at this
        exact this.2
      have htdk : foodDayKey userId (dateOf t.consumed_at) t = true := by
        simp [foodDayKey, htuser]
      have hc : ¬((List.length [t] == 0) = true) := by simp
      rw [if_neg hc]
      rcases hs.recon userId (dateOf t.consumed_at) with
        ⟨hsnil, hfonil, _⟩ | ⟨r, hf, hcal, hprot, hcarb, hfat, hflu⟩
      · exfalso
        have : t ∈ s.food_logs.filter (foodDayKey userId (dateOf t.consumed_at)) :=
          List.mem_filter.mpr ⟨htmem.1, htdk⟩
        rw [hfonil] at this
        cases this
      have hctr : ∀ rate : FoodItem → ℚ, contrib s.food_items rate t =
          rate item * (t.portion_size / 100) := by
        intro rate
        unfold contrib itemFor
        rw [hif]
      have hrem : ∀ rate : FoodItem → ℚ,
          (((s.food_logs.filter (fun x => !(foodOwnKey logId userId x))).filter
            (foodDayKey userId (dateOf t.consumed_at))).map
              (contrib s.food_items rate)).sum =
          ((s.food_logs.filter (foodDayKey userId (dateOf t.consumed_at))).map
            (contrib s.food_items rate)).sum - contrib s.food_items rate t :=
        fun rate => sum_filter_remove (contrib s.food_items rate)
          (foodDayKey userId (dateOf t.consumed_at)) (foodOwnKey logId userId)
          s.food_logs t hfq htdk
      refine Inv.mk ?_ ?_ ?_ hs.fluid_nodup hs.fluid_fresh ?_ ?_ ?_ hs.fluid_nonneg hs.items_ok
      · intro u' d'
        by_cases hud : u' = userId ∧ d' = dateOf t.consumed_at
        · obtain ⟨rfl, rfl⟩ := hud
          refine Or.inr ⟨{ r with total_calories := r.total_calories - item.calories_per_100g / 100 * t.portion_size, total_protein := r.total_protein - item.protein_per_100g / 100 * t.portion_size, total_carbs := r.total_carbs - item.carbs_per_100g / 100 * t.portion_size, total_fats := r.total_fats - item.fats_per_100g / 100 * t.portion_size, updated_at := now }, ?_, ?_, ?_, ?_, ?_, ?_⟩
          · show (s.daily_summaries.map _).filter _ = _
            rw [filter_map_comm _ _ _
              (summKey_pres_food_del_any u' u' (dateOf t.consumed_at) (dateOf t.consumed_at)
                (item.calories_per_100g / 100 * t.portion_size)
                (item.protein_per_100g / 100 * t.portion_size)
                (item.carbs_per_100g / 100 * t.portion_size)
                (item.fats_per_100g / 100 * t.portion_size) now), hf]
            have hkr := (key_of_filter_singleton hf).2
            simp [hkr]
          · show r.total_calories - _ = _
            unfold foodSum
            rw [hrem (fun f => f.calories_per_100g), hctr (fun f => f.calories_per_100g)]
            unfold foodSum at hcal
            rw [← hcal]
            ring
          · show r.total_protein - _ = _
            unfold foodSum
            rw [hrem (fun f => f.protein_per_100g), hctr (fun f => f.protein_per_100g)]
            unfold foodSum at hprot
            rw [← hprot]
            ring
          · show r.total_carbs - _ = _
            unfold foodSum
            rw [hrem (fun f => f.carbs_per_100g), hctr (fun f => f.carbs_per_100g)]
            unfold foodSum at hcarb
            rw [← hcarb]
            ring
          · show r.total_fats - _ = _
            unfold foodSum
            rw [hrem (fun f => f.fats_per_100g), hctr (fun f => f.fats_per_100g)]
            unfold foodSum at hfat
            rw [← hfat]
            ring
          · simpa using hflu
        · have hpl : foodDayKey u' d' t = false := by
            simp only [foodDayKey, Bool.and_eq_false_iff, beq_eq_false_iff_ne, ne_eq]
            rcases not_and_or.mp hud with h | h
            · exact Or.inl (fun hc => h (by rw [← hc, htuser]))
            · exact Or.inr (fun hc => h hc.symm)
          have hfo2 : List.filter (foodDayKey u' d')
              (s.food_logs.filter (fun x => !(foodOwnKey logId userId x))) =
              List.filter (foodDayKey u' d') s.food_logs :=
            filter_remove_other _ _ _ _ hfq hpl
          have hsm2 : List.filter (summKey u' d') (s.daily_summaries.map (fun x =>
              if summKey userId (dateOf t.consumed_at) x then
                { x with
                  total_calories := x.total_calories - item.calories_per_100g / 100 * t.portion_size
                  total_protein := x.total_protein - item.protein_per_100g / 100 * t.portion_size
                  total_carbs := x.total_carbs - item.carbs_per_100g / 100 * t.portion_size
                  total_fats := x.total_fats - item.fats_per_100g / 100 * t.portion_size
                  updated_at := now }
              else x)) = List.filter (summKey u' d') s.daily_summaries := by
            refine filter_map_fixed _ _ _
              (summKey_pres_food_del_any userId u' (dateOf t.consumed_at) d'
                (item.calories_per_100g / 100 * t.portion_size)
                (item.protein_per_100g / 100 * t.portion_size)
                (item.carbs_per_100g / 100 * t.portion_size)
                (item.fats_per_100g / 100 * t.portion_size) now) ?_
            intro x hx hpx
            have hcond : summKey userId (dateOf t.consumed_at) x = false := by
              by_contra hcc
              simp only [Bool.not_eq_false] at hcc
              simp only [summKey, Bool.and_eq_true, beq_iff_eq] at hcc hpx
              exact hud ⟨by rw [← hpx.1]; exact hcc.1, by rw [← hpx.2]; exact hcc.2⟩
            simp [hcond]
          exact SummOk_transfer (s := s) u' d' rfl hfo2 rfl hsm2 (hs.recon u' d')
      · exact hs.food_nodup.sublist
          (List.Sublist.map _ (List.filter_sublist _))
      · intro x hx
        exact hs.food_fresh x (List.mem_of_mem_filter hx)
      · show ((s.daily_summaries.map _).map _).Nodup
        rw [map_id_comp (fun x : DailySummaryRow => x.id) _ _ (fun x => by
          by_cases hx : summKey userId (dateOf t.consumed_at) x = true <;> simp [hx])]
        exact hs.summ_nodup
      · intro x hx
        obtain ⟨y, hy, rfl⟩ := List.mem_map.mp hx
        have hid : (if summKey userId (dateOf t.consumed_at) y then
            { y with
              total_calories := y.total_calories - item.calories_per_100g / 100 * t.portion_size
              total_protein := y.total_protein - item.protein_per_100g / 100 * t.portion_size
              total_carbs := y.total_carbs - item.carbs_per_100g / 100 * t.portion_size
              total_fats := y.total_fats - item.fats_per_100g / 100 * t.portion_size
              updated_at := now }
          else y).id = y.id := by
          by_cases hy2 : summKey userId (dateOf t.consumed_at) y = true <;> simp [hy2]
        rw [hid]
        exact hs.summ_fresh y hy
      · intro x hx
        exact hs.food_nonneg x (List.mem_of_mem_filter hx)

/-- An initial state satisfies the invariant. -/
lemma InitState_inv (s : Store) (h : InitState s) : Inv s := by
  obtain ⟨hfo, hfl, hsm, hit⟩ := h
  refine Inv.mk ?_ ?_ ?_ ?_ ?_ ?_ ?_ ?_ ?_ hit
  · intro uid d
    left
    rw [hfo, hfl, hsm]
    exact ⟨rfl, rfl, rfl⟩
  · rw [hfo]; exact List.nodup_nil
  · intro l hl; rw [hfo] at hl; cases hl
  · rw [hfl]; exact List.nodup_nil
  · intro l hl; rw [hfl] at hl; cases hl
  · rw [hsm]; exact List.nodup_nil
  · intro r hr; rw [hsm] at hr; cases hr
  · intro l hl; rw [hfo] at hl; cases hl
  · intro l hl; rw [hfl] at hl; cases hl

/-- Each valid operation preserves the invariant. -/
lemma applyOp_inv (s : Store) (op : Op) (hs : Inv s) (hop : ValidOp op) :
    Inv (applyOp s op) := by
  cases op with
  | food now input => exact logFood_inv s now input hs (le_of_lt hop)
  | delFood now logId userId => exact deleteFoodLog_inv s now logId userId hs
  | fluid now input => exact logFluid_inv s now input hs (le_of_lt hop)
  | delFluid now logId userId => exact deleteFluidLog_inv s now logId userId hs

/-- A sequence of valid operations preserves the invariant. -/
lemma runOps_inv (ops : List Op) : ∀ (s : Store), Inv s →
    (∀ op ∈ ops, ValidOp op) → Inv (runOps s ops) := by
  induction ops with
  | nil => intro s hs _; exact hs
  | cons op rest ih =>
      intro s hs hops
      exact ih (applyOp s op) (applyOp_inv s op hs (hops op (List.mem_cons_self _ _)))
        (fun o ho => hops o (List.mem_cons_of_mem _ ho))

/-- Per-log contributions are nonnegative for schema-valid items and
    nonnegative portions. -/
lemma contrib_nonneg (items : List FoodItem) (rate : FoodItem → ℚ)
    (hrate : ∀ f ∈ items, 0 ≤ rate f) (l : FoodLogRow) (hp : 0 ≤ l.portion_size) :
    0 ≤ contrib items rate l := by
  unfold contrib
  cases hit : itemFor items l with
  | none => exact le_refl 0
  | some f =>
      have hfmem : f ∈ items := by
        unfold itemFor at hit
        exact (head_filter_spec hit).1
      exact mul_nonneg (hrate f hfmem) (div_nonneg hp (by norm_num))

/-- The per-key food sums are nonnegative under the invariant. -/
lemma foodSum_nonneg (s : Store) (hs : Inv s) (rate : FoodItem → ℚ)
    (hrate : ∀ f ∈ s.food_items, 0 ≤ rate f) (userId : Nat) (d : Int) :
    0 ≤ foodSum s.food_items rate s.food_logs userId d := by
  unfold foodSum
  apply List.sum_nonneg
  intro x hx
  obtain ⟨y, hy, rfl⟩ := List.mem_map.mp hx
  exact contrib_nonneg s.food_items rate hrate y
    (hs.food_nonneg y (List.mem_of_mem_filter hy))

/-- The per-key fluid sums are nonnegative under the invariant. -/
lemma fluidSum_nonneg (s : Store) (hs : Inv s) (userId : Nat) (d : Int) :
    0 ≤ fluidSum s.fluid_logs userId d := by
  unfold fluidSum
  apply List.sum_nonneg
  intro x hx
  obtain ⟨y, hy, rfl⟩ := List.mem_map.mp hx
  exact hs.fluid_nonneg y (List.mem_of_mem_filter hy)

/-- C1: for every user and date, after any sequence of logFood,
    deleteFoodLog, logFluid and deleteFluidLog calls executed sequentially
    from an initial state, every DailySummary row for that (user, date)
    carries as its five totals the clamped-at-0 sums of the per-log
    contributions of the currently existing food and fluid logs whose
    consumed_at falls on that UTC calendar date; and a (user, date) with no
    DailySummary row has no such logs at all. -/
theorem C1_reconciliation_invariant (s : Store) (ops : List Op)
    (hinit : InitState s) (hops : ∀ op ∈ ops, ValidOp op)
    (userId : Nat) (d : Int) :
    ((runOps s ops).daily_summaries.filter (summKey userId d) = [] →
      (runOps s ops).food_logs.filter (foodDayKey userId d) = [] ∧
      (runOps s ops).fluid_logs.filter (fluidDayKey userId d) = []) ∧
    (∀ r ∈ (runOps s ops).daily_summaries.filter (summKey userId d),
      r.total_calories = max 0 (foodSum (runOps s ops).food_items
        (fun f => f.calories_per_100g) (runOps s ops).food_logs userId d) ∧
      r.total_protein = max 0 (foodSum (runOps s ops).food_items
        (fun f => f.protein_per_100g) (runOps s ops).food_logs userId d) ∧
      r.total_carbs = max 0 (foodSum (runOps s ops).food_items
        (fun f => f.carbs_per_100g) (runOps s ops).food_logs userId d) ∧
      r.total_fats = max 0 (foodSum (runOps s ops).food_items
        (fun f => f.fats_per_100g) (runOps s ops).food_logs userId d) ∧
      r.total_fluid = max 0 (fluidSum (runOps s ops).fluid_logs userId d)) := by
  have hinv : Inv (runOps s ops) := runOps_inv ops s (InitState_inv s hinit) hops
  have hcaln := foodSum_nonneg _ hinv (fun f => f.calories_per_100g)
    (fun f hf => (hinv.items_ok f hf).1) userId d
  have hprotn := foodSum_nonneg _ hinv (fun f => f.protein_per_100g)
    (fun f hf => (hinv.items_ok f hf).2.1) userId d
  have hcarbn := foodSum_nonneg _ hinv (fun f => f.carbs_per_100g)
    (fun f hf => (hinv.items_ok f hf).2.2.1) userId d
  have hfatn := foodSum_nonneg _ hinv (fun f => f.fats_per_100g)
    (fun f hf => (hinv.items_ok f hf).2.2.2) userId d
  have hflun := fluidSum_nonneg _ hinv userId d
  rcases hinv.recon userId d with ⟨hs0, hfo, hfl⟩ | ⟨r0, hf, hcal, hprot, hcarb, hfat, hflu⟩
  · refine ⟨fun _ => ⟨hfo, hfl⟩, ?_⟩
    intro r hr
    rw [hs0] at hr
    cases hr
  · constructor
    · intro h
      rw [h] at hf
      cases hf
    · intro r hr
      rw [hf] at hr
      simp only [List.mem_singleton] at hr
      subst hr
      refine ⟨?_, ?_, ?_, ?_, ?_⟩
      · rw [max_eq_right hcaln]; exact hcal
      · rw [max_eq_right hprotn]; exact hprot
      · rw [max_eq_right hcarbn]; exact hcarb
      · rw [max_eq_right hfatn]; exact hfat
      · rw [max_eq_right hflun]; exact hflu

/-- A sample timestamp used by the concrete witnesses. -/
def sampleTime : Timestamp := { day := 0, ms := 1000 }

/-- A sample user. -/
def sampleUser : User := { id := 1, name := "Alice", email := "alice@example.com" }

/-- A sample food item: 52 kcal, 1 g protein, 14 g carbs, 0 g fat per 100 g. -/
def sampleItem : FoodItem :=
  { id := 1, name := "apple", calories_per_100g := 52, protein_per_100g := 1,
    carbs_per_100g := 14, fats_per_100g := 0 }

/-- A sample initial store: one user, one food item, no logs, no summaries. -/
def sampleStore : Store :=
  { users := [sampleUser], food_items := [sampleItem], daily_goals := [],
    food_logs := [], fluid_logs := [], daily_summaries := [],
    next_food_log_id := 1, next_fluid_log_id := 1, next_summary_id := 1 }

/-- A sample operation sequence: log 150 g of the item, then 500 ml of water. -/
def sampleOps : List Op :=
  [Op.food sampleTime { user_id := 1, food_item_id := 1, portion_size := 150, consumed_at := some sampleTime },
   Op.fluid sampleTime { user_id := 1, fluid_type := "water", volume := 500, consumed_at := some sampleTime }]

/-- The sample store is an initial state. -/
lemma sampleStore_init : InitState sampleStore := by
  refine ⟨rfl, rfl, rfl, ?_⟩
  intro f hf
  simp only [sampleStore, List.mem_singleton] at hf
  subst hf
  exact ⟨by norm_num [sampleItem], by norm_num [sampleItem],
    by norm_num [sampleItem], by norm_num [sampleItem]⟩

/-- The sample operations are valid. -/
lemma sampleOps_valid : ∀ op ∈ sampleOps, ValidOp op := by
  intro op hop
  simp only [sampleOps, List.mem_cons, List.mem_singleton] at hop
  rcases hop with rfl | rfl | h
  · show (0 : ℚ) < 150
    norm_num
  · show (0 : ℚ) < 500
    norm_num
  · cases h

/-- Witness for C1 at a concrete initial store, operation list and key. -/
theorem C1_reconciliation_invariant_witness :
    (runOps sampleStore sampleOps).food_logs.filter (foodDayKey 2 5) = [] ∧
    (runOps sampleStore sampleOps).fluid_logs.filter (fluidDayKey 2 5) = [] :=
  (C1_reconciliation_invariant sampleStore sampleOps sampleStore_init
    sampleOps_valid 2 5).1 rfl

/-- C7: logFood fails with a not-found error whenever the user id or the
    food item id does not resolve, and in that case the store is unchanged:
    no FoodLog row is written and no DailySummary row is created or changed. -/
theorem C7_logFood_not_found (s : Store) (now : Timestamp) (input : LogFoodInput)
    (h : (s.users.filter (fun u => u.id == input.user_id)).head? = none ∨
         (s.food_items.filter (fun f => f.id == input.food_item_id)).head? = none) :
    (∃ msg, (logFood s now input).1 = Except.error msg) ∧
    (logFood s now input).2 = s := by
  unfold logFood
  cases hu : (s.users.filter (fun u => u.id == input.user_id)).head? with
  | none => exact ⟨⟨_, rfl⟩, rfl⟩
  | some u =>
      rcases h with h | h
      · rw [hu] at h; cases h
      · rw [h]
        exact ⟨⟨_, rfl⟩, rfl⟩

/-- Witness for C7: logging against a store whose only user has id 1. -/
theorem C7_logFood_not_found_witness :
    (∃ msg, (logFood sampleStore sampleTime { user_id := 99, food_item_id := 1, portion_size := 100, consumed_at := none }).1 = Except.error msg) ∧
    (logFood sampleStore sampleTime { user_id := 99, food_item_id := 1, portion_size := 100, consumed_at := none }).2 = sampleStore :=
  C7_logFood_not_found sampleStore sampleTime _ (Or.inl rfl)

/-- C8: deleting a food or fluid log that does not exist, or that belongs
    to a different user, returns false and leaves the store — including
    every DailySummary row — unchanged; both cases produce the identical
    result. -/
theorem C8_delete_absent_or_foreign (s : Store) (now : Timestamp)
    (logId userId : Nat) :
    (s.food_logs.filter (foodOwnKey logId userId) = [] →
      deleteFoodLog s now logId userId = (false, s)) ∧
    (s.fluid_logs.filter (fluidOwnKey logId userId) = [] →
      deleteFluidLog s now logId userId = (false, s)) := by
  constructor
  · intro h
    unfold deleteFoodLog
    rw [h]
    rfl
  · intro h
    unfold deleteFluidLog
    rw [h]
    rfl

/-- Witness for C8: deleting the nonexistent log id 7 from the sample store. -/
theorem C8_delete_absent_or_foreign_witness :
    deleteFoodLog sampleStore sampleTime 7 1 = (false, sampleStore) ∧
    deleteFluidLog sampleStore sampleTime 7 1 = (false, sampleStore) :=
  ⟨(C8_delete_absent_or_foreign sampleStore sampleTime 7 1).1 rfl,
   (C8_delete_absent_or_foreign sampleStore sampleTime 7 1).2 rfl⟩

/-- C9: when the log exists and belongs to the requesting user but no
    DailySummary row exists for that user and the log's calendar date,
    deleteFoodLog and deleteFluidLog still delete the log and return true;
    the missing-summary reversal is a silent no-op: the summaries table is
    left exactly as it was, with no row created or modified. -/
theorem C9_delete_missing_summary_noop (s : Store) (now : Timestamp)
    (logId userId : Nat) :
    (∀ t item, s.food_logs.filter (foodOwnKey logId userId) = [t] →
      (s.food_items.filter (fun f => f.id == t.food_item_id)).head? = some item →
      s.daily_summaries.filter (summKey userId (dateOf t.consumed_at)) = [] →
      (deleteFoodLog s now logId userId).1 = true ∧
      (deleteFoodLog s now logId userId).2.food_logs =
        s.food_logs.filter (fun l => !(foodOwnKey logId userId l)) ∧
      (deleteFoodLog s now logId userId).2.daily_summaries = s.daily_summaries ∧
      (deleteFoodLog s now logId userId).2.fluid_logs = s.fluid_logs) ∧
    (∀ t, s.fluid_logs.filter (fluidOwnKey logId userId) = [t] →
      s.daily_summaries.filter (summKey userId (dateOf t.consumed_at)) = [] →
      deleteFluidLog s now logId userId =
        (true, { s with fluid_logs :=
          s.fluid_logs.filter (fun l => !(fluidOwnKey logId userId l)) })) := by
  constructor
  · intro t item hfq hif hno
    have hcomp : deleteFoodLog s now logId userId =
        (true, { s with
          food_logs := s.food_logs.filter (fun l => !(foodOwnKey logId userId l))
          daily_summaries := s.daily_summaries.map (fun r =>
            if summKey userId (dateOf t.consumed_at) r then
              { r with
                total_calories := r.total_calories - item.calories_per_100g / 100 * t.portion_size
                total_protein := r.total_protein - item.protein_per_100g / 100 * t.portion_size
                total_carbs := r.total_carbs - item.carbs_per_100g / 100 * t.portion_size
                total_fats := r.total_fats - item.fats_per_100g / 100 * t.portion_size
                updated_at := now }
            else r) }) := by
      unfold deleteFoodLog
      rw [hfq]
      dsimp only
      have hjh : (([t].flatMap (fun l => (s.food_items.filter
          (fun f => f.id == l.food_item_id)).map (fun f => (l, f)))).head?) =
          some (t, item) := by
        simp only [List.flatMap_cons, List.flatMap_nil, List.append_nil]
        rw [List.head?_map, hif]
        rfl
      rw [hjh]
      dsimp only
      have hc : ¬((List.length [t] == 0) = true) := by simp
      rw [if_neg hc]
    have hmap : s.daily_summaries.map (fun r =>
        if summKey userId (dateOf t.consumed_at) r then
          { r with
            total_calories := r.total_calories - item.calories_per_100g / 100 * t.portion_size
            total_protein := r.total_protein - item.protein_per_100g / 100 * t.portion_size
            total_carbs := r.total_carbs - item.carbs_per_100g / 100 * t.portion_size
            total_fats := r.total_fats - item.fats_per_100g / 100 * t.portion_size
            updated_at := now }
        else r) = s.daily_summaries := by
      apply map_id_of_fixed
      intro x hx
      have hcond : summKey userId (dateOf t.consumed_at) x = false := by
        by_contra hc
        simp only [Bool.not_eq_false] at hc
        have : x ∈ s.daily_summaries.filter (summKey userId (dateOf t.consumed_at)) :=
          List.mem_filter.mpr ⟨hx, hc⟩
        rw [hno] at this
        cases this
      simp [hcond]
    rw [hcomp]
    exact ⟨rfl, rfl, hmap, rfl⟩
  · intro t hfq hno
    unfold deleteFluidLog
    have hh : (s.fluid_logs.filter (fluidOwnKey logId userId)).head? = some t := by
      rw [hfq]; rfl
    rw [hh]
    dsimp only
    rw [hfq]
    have hc : ¬((List.length [t] == 0) = true) := by simp
    rw [if_neg hc]
    have hh2 : (s.daily_summaries.filter
        (summKey userId (dateOf t.consumed_at))).head? = none := by
      rw [hno]; rfl
    rw [hh2]

/-- A store for the C9 witness: one owned food log and one owned fluid log
    on day 0, and no summary rows at all. -/
def c9Store : Store :=
  { users := [sampleUser], food_items := [sampleItem], daily_goals := [],
    food_logs := [{ id := 1, user_id := 1, food_item_id := 1, portion_size := 150, consumed_at := sampleTime, created_at := sampleTime }],
    fluid_logs := [{ id := 1, user_id := 1, fluid_type := "water", volume := 500, consumed_at := sampleTime, created_at := sampleTime }],
    daily_summaries := [],
    next_food_log_id := 2, next_fluid_log_id := 2, next_summary_id := 1 }

/-- Witness for C9: both deletions succeed on c9Store and leave the (empty)
    summaries table untouched. -/
theorem C9_delete_missing_summary_noop_witness :
    ((deleteFoodLog c9Store sampleTime 1 1).1 = true ∧
      (deleteFoodLog c9Store sampleTime 1 1).2.food_logs =
        c9Store.food_logs.filter (fun l => !(foodOwnKey 1 1 l)) ∧
      (deleteFoodLog c9Store sampleTime 1 1).2.daily_summaries =
        c9Store.daily_summaries ∧
      (deleteFoodLog c9Store sampleTime 1 1).2.fluid_logs = c9Store.fluid_logs) ∧
    deleteFluidLog c9Store sampleTime 1 1 =
      (true, { c9Store with fluid_logs :=
        c9Store.fluid_logs.filter (fun l => !(fluidOwnKey 1 1 l)) }) :=
  ⟨(C9_delete_missing_summary_noop c9Store sampleTime 1 1).1 _ sampleItem rfl rfl rfl,
   (C9_delete_missing_summary_noop c9Store sampleTime 1 1).2 _ rfl rfl⟩

/-- A drifted store for C2: the summary records only 10 kcal while the
    existing food log contributes 78 kcal (150 g at 52 kcal / 100 g). -/
def c2FoodStore : Store :=
  { users := [sampleUser], food_items := [sampleItem], daily_goals := [],
    food_logs := [{ id := 1, user_id := 1, food_item_id := 1, portion_size := 150, consumed_at := sampleTime, created_at := sampleTime }],
    fluid_logs := [],
    daily_summaries := [{ id := 1, user_id := 1, summary_date := 0, total_calories := 10, total_protein := 0, total_carbs := 0, total_fats := 0, total_fluid := 0, created_at := sampleTime, updated_at := sampleTime }],
    next_food_log_id := 2, next_fluid_log_id := 1, next_summary_id := 2 }

/-- The fluid counterpart: summary at 500 ml, log contributed 800 ml. -/
def c2FluidStore : Store :=
  { users := [sampleUser], food_items := [sampleItem], daily_goals := [],
    food_logs := [],
    fluid_logs := [{ id := 1, user_id := 1, fluid_type := "water", volume := 800, consumed_at := sampleTime, created_at := sampleTime }],
    daily_summaries := [{ id := 1, user_id := 1, summary_date := 0, total_calories := 0, total_protein := 0, total_carbs := 0, total_fats := 0, total_fluid := 500, created_at := sampleTime, updated_at := sampleTime }],
    next_food_log_id := 1, next_fluid_log_id := 2, next_summary_id := 2 }

/-- C2 counterexample on the food path, with the fluid path for contrast:
    deleteFoodLog subtracts without clamping and drives total_calories to
    -68 < 0, while deleteFluidLog clamps the analogous case to 0. -/
theorem C2_deleteFoodLog_goes_negative :
    (deleteFoodLog c2FoodStore sampleTime 1 1).1 = true ∧
    (deleteFoodLog c2FoodStore sampleTime 1 1).2.daily_summaries.map
      (fun r => r.total_calories) = [-68] ∧
    ((-68 : ℚ) < 0) ∧
    (deleteFluidLog c2FluidStore sampleTime 1 1).2.daily_summaries.map
      (fun r => r.total_fluid) = [0] := by
  refine ⟨?_, ?_, by norm_num, ?_⟩
  · norm_num [deleteFoodLog, c2FoodStore, sampleUser, sampleItem, sampleTime,
      foodOwnKey, summKey, dateOf]
  · norm_num [deleteFoodLog, c2FoodStore, sampleUser, sampleItem, sampleTime,
      foodOwnKey, summKey, dateOf]
  · norm_num [deleteFluidLog, c2FluidStore, sampleUser, sampleTime,
      fluidOwnKey, summKey, dateOf]

/-- The second food-log input of the C3 scenario: 100 g of the same item. -/
def c3InputA : LogFoodInput :=
  { user_id := 1, food_item_id := 1, portion_size := 150, consumed_at := some sampleTime }

/-- The first food-log input of the C3 scenario: 150 g at 52 kcal / 100 g. -/
def c3InputB : LogFoodInput :=
  { user_id := 1, food_item_id := 1, portion_size := 100, consumed_at := some sampleTime }

/-- C3: a successful logFood adds exactly per-100g-rate x portion/100 to
    each of the four nutrient totals and adds nothing to the fluid total
    (an absent row is created with those deltas and zero fluid);
    consequently logging 150 g then 100 g of a 52 kcal/100g item for the
    same user and day leaves a single DailySummary row with
    total_calories = 130. -/
theorem C3_logFood_deltas (s : Store) (now : Timestamp) (input : LogFoodInput)
    (u : User) (item : FoodItem)
    (hu : (s.users.filter (fun x => x.id == input.user_id)).head? = some u)
    (hi : (s.food_items.filter (fun f => f.id == input.food_item_id)).head? = some item) :
    (∀ cur, s.daily_summaries.filter
        (summKey input.user_id (dateOf (input.consumed_at.getD now))) = [cur] →
      (logFood s now input).2.daily_summaries.filter
          (summKey input.user_id (dateOf (input.consumed_at.getD now))) =
        [{ cur with
           total_calories := cur.total_calories + item.calories_per_100g * (input.portion_size / 100)
           total_protein := cur.total_protein + item.protein_per_100g * (input.portion_size / 100)
           total_carbs := cur.total_carbs + item.carbs_per_100g * (input.portion_size / 100)
           total_fats := cur.total_fats + item.fats_per_100g * (input.portion_size / 100)
           updated_at := now }]) ∧
    (s.daily_summaries.filter
        (summKey input.user_id (dateOf (input.consumed_at.getD now))) = [] →
      (logFood s now input).2.daily_summaries.filter
          (summKey input.user_id (dateOf (input.consumed_at.getD now))) =
        [{ id := s.next_summary_id, user_id := input.user_id,
           summary_date := dateOf (input.consumed_at.getD now),
           total_calories := item.calories_per_100g * (input.portion_size / 100),
           total_protein := item.protein_per_100g * (input.portion_size / 100),
           total_carbs := item.carbs_per_100g * (input.portion_size / 100),
           total_fats := item.fats_per_100g * (input.portion_size / 100),
           total_fluid := 0, created_at := now, updated_at := now }]) ∧
    ((logFood (logFood sampleStore sampleTime c3InputA).2 sampleTime c3InputB).2.daily_summaries.map
      (fun r => r.total_calories) = [130]) := by
  refine ⟨?_, ?_, ?_⟩
  · intro cur hsm
    unfold logFood
    rw [hu]
    dsimp only
    rw [hi]
    dsimp only
    unfold updateDailySummary
    dsimp only
    have hh : (s.daily_summaries.filter
        (summKey input.user_id (dateOf (input.consumed_at.getD now)))).head? =
        some cur := by rw [hsm]; rfl
    rw [hh]
    dsimp only
    rw [filter_map_comm _ _ _ (summKey_pres_food input.user_id
        (dateOf (input.consumed_at.getD now)) cur
        (item.calories_per_100g * (input.portion_size / 100))
        (item.protein_per_100g * (input.portion_size / 100))
        (item.carbs_per_100g * (input.portion_size / 100))
        (item.fats_per_100g * (input.portion_size / 100)) now), hsm]
    simp
  · intro hsm
    unfold logFood
    rw [hu]
    dsimp only
    rw [hi]
    dsimp only
    unfold updateDailySummary
    dsimp only
    have hh : (s.daily_summaries.filter
        (summKey input.user_id (dateOf (input.consumed_at.getD now)))).head? =
        none := by rw [hsm]; rfl
    rw [hh]
    dsimp only
    rw [filter_append_pos _ _ _ (by simp [summKey]), hsm]
    rfl
  · norm_num [logFood, updateDailySummary, sampleStore, sampleUser, sampleItem,
      sampleTime, c3InputA, c3InputB, summKey, dateOf]

/-- Witness for C3: the update branch evaluated on a concrete store that
    already carries a summary row for the key. -/
theorem C3_logFood_deltas_witness :
    (logFood c2FoodStore sampleTime c3InputB).2.daily_summaries.filter
        (summKey 1 (dateOf sampleTime)) =
      [{ id := 1, user_id := 1, summary_date := 0,
         total_calories := 10 + 52 * ((100 : ℚ) / 100),
         total_protein := 0 + 1 * ((100 : ℚ) / 100),
         total_carbs := 0 + 14 * ((100 : ℚ) / 100),
         total_fats := 0 + 0 * ((100 : ℚ) / 100),
         total_fluid := 0, created_at := sampleTime, updated_at := sampleTime }] :=
  (C3_logFood_deltas c2FoodStore sampleTime c3InputB sampleUser sampleItem rfl rfl).1
    { id := 1, user_id := 1, summary_date := 0, total_calories := 10, total_protein := 0, total_carbs := 0, total_fats := 0, total_fluid := 0, created_at := sampleTime, updated_at := sampleTime }
    rfl

/-- The last millisecond of day 0: 23:59:59.999. -/
def lastMs : Timestamp := { day := 0, ms := 86399999 }

/-- The store after logging 100 ml of water at 23:59:59.999 of day 0. -/
def c4Store : Store :=
  (logFluid sampleStore sampleTime { user_id := 1, fluid_type := "water", volume := 100, consumed_at := some lastMs }).2

/-- C4 divergence witness: the fluid log consumed at 23:59:59.999 of day 0
    lies on UTC calendar day 0 and its volume is counted in day 0's
    summary, yet getUserDailyProgress for day 0 returns it in neither
    fluid_logs nor (a fortiori) food_logs: the range check is strict at
    the 23:59:59.999 endpoint. -/
theorem C4_progress_excludes_last_millisecond :
    c4Store.fluid_logs.map (fun l => (l.user_id, dateOf l.consumed_at, l.volume)) =
      [(1, 0, (100 : ℚ))] ∧
    c4Store.daily_summaries.map (fun r => (r.summary_date, r.total_fluid)) =
      [(0, (100 : ℚ))] ∧
    (getUserDailyProgress c4Store 1 0).fluid_logs = [] ∧
    (getUserDailyProgress c4Store 1 0).summary =
      c4Store.daily_summaries.head? := by
  refine ⟨?_, ?_, ?_, ?_⟩
  · norm_num [c4Store, logFluid, sampleStore, sampleUser, sampleTime, lastMs,
      summKey, dateOf]
  · norm_num [c4Store, logFluid, sampleStore, sampleUser, sampleTime, lastMs,
      summKey, dateOf]
  · norm_num [getUserDailyProgress, c4Store, logFluid, sampleStore, sampleUser,
      sampleTime, lastMs, summKey, dateOf, tsLeB, tsLtB, latestBy]
  · norm_num [getUserDailyProgress, c4Store, logFluid, sampleStore, sampleUser,
      sampleTime, lastMs, summKey, dateOf, tsLeB, tsLtB, latestBy]

/-- An older goals row (id 1, created and last updated at ms 1). -/
def c5Goals1 : DailyGoalsRow :=
  { id := 1, user_id := 1, daily_calories := 2000, daily_protein := 150, daily_carbs := 250, daily_fats := 70, daily_fluid := 2000, created_at := { day := 0, ms := 1 }, updated_at := { day := 0, ms := 1 } }

/-- A newer goals row (id 2, created and last updated at ms 2). -/
def c5Goals2 : DailyGoalsRow :=
  { id := 2, user_id := 1, daily_calories := 1800, daily_protein := 140, daily_carbs := 230, daily_fats := 60, daily_fluid := 1900, created_at := { day := 0, ms := 2 }, updated_at := { day := 0, ms := 2 } }

/-- A store carrying both goals rows for user 1. -/
def c5Store : Store :=
  { sampleStore with daily_goals := [c5Goals1, c5Goals2] }

/-- The goal edit bumping the older row: set daily_calories of row id 1. -/
def c5Upd : UpdateDailyGoalsInput :=
  { id := 1, daily_calories := some 2200, daily_protein := none, daily_carbs := none, daily_fats := none, daily_fluid := none }

/-- The bump time, later than both rows. -/
def c5Time : Timestamp := { day := 0, ms := 10 }

/-- The store after updateDailyGoals bumped row 1's updated_at to ms 10. -/
def c5Store2 : Store := (updateDailyGoals c5Store c5Time c5Upd).2

/-- C5 counterexample: after updateDailyGoals bumps the updated_at of the
    older row (id 1) above all others, getUserDailyGoals still returns the
    most recently created row (id 2), whose updated_at is strictly older
    than row 1's — so not every goals fetch returns the row with the most
    recent updated_at. -/
theorem C5_getUserDailyGoals_counterexample :
    getUserDailyGoals c5Store2 1 = some c5Goals2 ∧
    (applyGoalsUpdate c5Upd c5Time c5Goals1) ∈ c5Store2.daily_goals ∧
    tsLtB c5Goals2.updated_at (applyGoalsUpdate c5Upd c5Time c5Goals1).updated_at = true := by
  refine ⟨?_, ?_, ?_⟩
  · norm_num [getUserDailyGoals, c5Store2, updateDailyGoals, c5Store,
      sampleStore, c5Goals1, c5Goals2, c5Upd, c5Time, applyGoalsUpdate,
      latestBy, tsLtB]
  · norm_num [c5Store2, updateDailyGoals, c5Store, sampleStore, c5Goals1,
      c5Goals2, c5Upd, c5Time, applyGoalsUpdate]
  · norm_num [c5Goals2, applyGoalsUpdate, c5Upd, c5Time, tsLtB]

/-- C5 amended: getDailyProgress (step 1) returns a goals row that is
    maximal by updated_at among the user's rows, while getUserDailyGoals
    returns a row maximal by created_at (its updated_at may be older). -/
theorem C5_current_goals_amended (s : Store) (userId : Nat) (date : Int)
    (hne : s.daily_goals.filter (fun g => g.user_id == userId) ≠ []) :
    (∃ g, (getUserDailyProgress s userId date).goals = some g ∧
      g ∈ s.daily_goals.filter (fun x => x.user_id == userId) ∧
      ∀ g' ∈ s.daily_goals.filter (fun x => x.user_id == userId),
        tsLtB g.updated_at g'.updated_at = false) ∧
    (∃ g, getUserDailyGoals s userId = some g ∧
      g ∈ s.daily_goals.filter (fun x => x.user_id == userId) ∧
      ∀ g' ∈ s.daily_goals.filter (fun x => x.user_id == userId),
        tsLtB g.created_at g'.created_at = false) := by
  obtain ⟨m1, hm1⟩ := latestBy_isSome (fun g : DailyGoalsRow => g.updated_at)
    (s.daily_goals.filter (fun g => g.user_id == userId)) hne
  obtain ⟨m2, hm2⟩ := latestBy_isSome (fun g : DailyGoalsRow => g.created_at)
    (s.daily_goals.filter (fun g => g.user_id == userId)) hne
  constructor
  · exact ⟨m1, by show latestBy _ _ = _; exact hm1,
      latestBy_mem _ _ _ hm1, latestBy_maximal _ _ _ hm1⟩
  · exact ⟨m2, by show latestBy _ _ = _; exact hm2,
      latestBy_mem _ _ _ hm2, latestBy_maximal _ _ _ hm2⟩

/-- Witness for the amended C5 on the concrete two-row store. -/
theorem C5_current_goals_amended_witness :
    (∃ g, (getUserDailyProgress c5Store2 1 0).goals = some g ∧
      g ∈ c5Store2.daily_goals.filter (fun x => x.user_id == 1) ∧
      ∀ g' ∈ c5Store2.daily_goals.filter (fun x => x.user_id == 1),
        tsLtB g.updated_at g'.updated_at = false) ∧
    (∃ g, getUserDailyGoals c5Store2 1 = some g ∧
      g ∈ c5Store2.daily_goals.filter (fun x => x.user_id == 1) ∧
      ∀ g' ∈ c5Store2.daily_goals.filter (fun x => x.user_id == 1),
        tsLtB g.created_at g'.created_at = false) :=
  C5_current_goals_amended c5Store2 1 0 (by
    norm_num [c5Store2, updateDailyGoals, c5Store, sampleStore, c5Goals1,
      c5Goals2, c5Upd, c5Time, applyGoalsUpdate]
    exact List.cons_ne_nil _ _)

/-- The goals component of getUserDailyProgress is the updated_at-latest row. -/
lemma progress_goals_def (s : Store) (userId : Nat) (date : Int) :
    (getUserDailyProgress s userId date).goals =
      latestBy (fun g : DailyGoalsRow => g.updated_at)
        (s.daily_goals.filter (fun g => g.user_id == userId)) := rfl

/-- The summary component of getUserDailyProgress is the first key-matching row. -/
lemma progress_summary_def (s : Store) (userId : Nat) (date : Int) :
    (getUserDailyProgress s userId date).summary =
      (s.daily_summaries.filter (summKey userId date)).head? := rfl

/-- The percentages of getUserDailyProgress as a function of the fetched
    goals and summary. -/
lemma progress_pct_def (s : Store) (userId : Nat) (date : Int) :
    (getUserDailyProgress s userId date).progress_percentages =
      (match latestBy (fun g : DailyGoalsRow => g.updated_at)
          (s.daily_goals.filter (fun g => g.user_id == userId)),
        (s.daily_summaries.filter (summKey userId date)).head? with
       | some g, some m =>
          { calories := pct m.total_calories g.daily_calories
            protein := pct m.total_protein g.daily_protein
            carbs := pct m.total_carbs g.daily_carbs
            fats := pct m.total_fats g.daily_fats
            fluid := pct m.total_fluid g.daily_fluid }
       | _, _ =>
          { calories := .fin 0, protein := .fin 0, carbs := .fin 0,
            fats := .fin 0, fluid := .fin 0 }) := rfl

/-- For a nonzero target, the JS percentage computation is exactly the
    rational round-half-up of total / target x 100. -/
lemma pct_eq_round (total target : ℚ) (h : target ≠ 0) :
    pct total target = .fin ((⌊total / target * 100 + 1/2⌋ : Int) : ℚ) := by
  unfold pct jsDiv
  rw [if_neg h]
  rfl

/-- C6: when both a goals row and a summary row exist (and the targets are
    nonzero so the quotient is an ordinary rational), every percentage is
    round(total / target x 100); when either is missing all five
    percentages are 0 — in particular a user with goals but no logged data
    gets non-null goals, null summary and all-zero percentages, with no
    error raised (the function is total). -/
theorem C6_progress_percentage_derivation (s : Store) (userId : Nat) (date : Int) :
    (∀ g m, latestBy (fun x : DailyGoalsRow => x.updated_at)
        (s.daily_goals.filter (fun x => x.user_id == userId)) = some g →
      (s.daily_summaries.filter (summKey userId date)).head? = some m →
      g.daily_calories ≠ 0 → g.daily_protein ≠ 0 → g.daily_carbs ≠ 0 →
      g.daily_fats ≠ 0 → g.daily_fluid ≠ 0 →
      (getUserDailyProgress s userId date).progress_percentages =
        { calories := .fin ((⌊m.total_calories / g.daily_calories * 100 + 1/2⌋ : Int) : ℚ)
          protein := .fin ((⌊m.total_protein / g.daily_protein * 100 + 1/2⌋ : Int) : ℚ)
          carbs := .fin ((⌊m.total_carbs / g.daily_carbs * 100 + 1/2⌋ : Int) : ℚ)
          fats := .fin ((⌊m.total_fats / g.daily_fats * 100 + 1/2⌋ : Int) : ℚ)
          fluid := .fin ((⌊m.total_fluid / g.daily_fluid * 100 + 1/2⌋ : Int) : ℚ) }) ∧
    ((latestBy (fun x : DailyGoalsRow => x.updated_at)
        (s.daily_goals.filter (fun x => x.user_id == userId)) = none ∨
      (s.daily_summaries.filter (summKey userId date)).head? = none) →
      (getUserDailyProgress s userId date).progress_percentages =
        { calories := .fin 0, protein := .fin 0, carbs := .fin 0,
          fats := .fin 0, fluid := .fin 0 }) ∧
    (∀ g, latestBy (fun x : DailyGoalsRow => x.updated_at)
        (s.daily_goals.filter (fun x => x.user_id == userId)) = some g →
      (s.daily_summaries.filter (summKey userId date)).head? = none →
      (getUserDailyProgress s userId date).goals = some g ∧
      (getUserDailyProgress s userId date).summary = none ∧
      (getUserDailyProgress s userId date).progress_percentages =
        { calories := .fin 0, protein := .fin 0, carbs := .fin 0,
          fats := .fin 0, fluid := .fin 0 }) := by
  refine ⟨?_, ?_, ?_⟩
  · intro g m hg hm h1 h2 h3 h4 h5
    rw [progress_pct_def, hg, hm]
    dsimp only
    rw [pct_eq_round _ _ h1, pct_eq_round _ _ h2, pct_eq_round _ _ h3,
      pct_eq_round _ _ h4, pct_eq_round _ _ h5]
  · intro h
    rw [progress_pct_def]
    rcases h with h | h
    · rw [h]
    · rw [h]
      cases latestBy (fun x : DailyGoalsRow => x.updated_at)
        (s.daily_goals.filter (fun x => x.user_id == userId)) <;> rfl
  · intro g hg hm
    refine ⟨?_, ?_, ?_⟩
    · rw [progress_goals_def, hg]
    · rw [progress_summary_def, hm]
    · rw [progress_pct_def, hg, hm]

/-- A goals row for the C6 and C10 witnesses and a summary with data. -/
def c6Goals : DailyGoalsRow :=
  { id := 1, user_id := 1, daily_calories := 2000, daily_protein := 150, daily_carbs := 250, daily_fats := 70, daily_fluid := 2000, created_at := { day := 0, ms := 1 }, updated_at := { day := 0, ms := 1 } }

/-- A store with goals for user 1 and no logged data on any date. -/
def c6Store : Store := { sampleStore with daily_goals := [c6Goals] }

/-- Witness for C6: goals exist, no summary row for the date — non-null
    goals, null summary, all five percentages zero. -/
theorem C6_progress_percentage_derivation_witness :
    (getUserDailyProgress c6Store 1 0).goals = some c6Goals ∧
    (getUserDailyProgress c6Store 1 0).summary = none ∧
    (getUserDailyProgress c6Store 1 0).progress_percentages =
      { calories := .fin 0, protein := .fin 0, carbs := .fin 0,
        fats := .fin 0, fluid := .fin 0 } :=
  (C6_progress_percentage_derivation c6Store 1 0).2.2 c6Goals rfl rfl

/-- A schema-valid goals row with a zero protein target. -/
def c10Goals : DailyGoalsRow :=
  { id := 1, user_id := 1, daily_calories := 2000, daily_protein := 0, daily_carbs := 250, daily_fats := 70, daily_fluid := 2000, created_at := { day := 0, ms := 1 }, updated_at := { day := 0, ms := 1 } }

/-- A summary row recording 100 g of protein on day 0. -/
def c10Summary : DailySummaryRow :=
  { id := 1, user_id := 1, summary_date := 0, total_calories := 500, total_protein := 100, total_carbs := 100, total_fats := 30, total_fluid := 1000, created_at := { day := 0, ms := 1 }, updated_at := { day := 0, ms := 1 } }

/-- A store exhibiting the zero-goal division: valid goals with
    daily_protein = 0, plus an existing summary. -/
def c10Store : Store :=
  { sampleStore with daily_goals := [c10Goals], daily_summaries := [c10Summary] }

/-- C10: when the current goals row has a zero target (permitted by
    dailyGoalsSchema) and a summary row exists, the protein percentage is
    computed by an unguarded division by zero and comes out non-finite:
    Infinity for a positive total, NaN when the total is zero. -/
theorem C10_zero_goal_division (s : Store) (userId : Nat) (date : Int)
    (g : DailyGoalsRow) (m : DailySummaryRow)
    (hg : latestBy (fun x : DailyGoalsRow => x.updated_at)
      (s.daily_goals.filter (fun x => x.user_id == userId)) = some g)
    (hgv : dailyGoalsValid g) (hzero : g.daily_protein = 0)
    (hm : (s.daily_summaries.filter (summKey userId date)).head? = some m)
    (hnn : 0 ≤ m.total_protein) :
    (getUserDailyProgress s userId date).progress_percentages.protein =
      (if 0 < m.total_protein then JSVal.posInf else JSVal.nan) ∧
    jsIsFinite (getUserDailyProgress s userId date).progress_percentages.protein
      = false := by
  have h1 : (getUserDailyProgress s userId date).progress_percentages.protein =
      pct m.total_protein g.daily_protein := by
    rw [progress_pct_def, hg, hm]
  rw [h1, hzero]
  by_cases hp : 0 < m.total_protein
  · have hv : pct m.total_protein 0 = JSVal.posInf := by
      unfold pct jsDiv
      rw [if_pos rfl, if_pos hp]
      rfl
    rw [hv, if_pos hp]
    exact ⟨rfl, rfl⟩
  · have hz : m.total_protein = 0 := le_antisymm (not_lt.mp hp) hnn
    have hv : pct m.total_protein 0 = JSVal.nan := by
      unfold pct jsDiv
      rw [if_pos rfl, if_neg hp, if_neg (by rw [hz]; exact lt_irrefl 0)]
      rfl
    rw [hv, if_neg hp]
    exact ⟨rfl, rfl⟩

/-- Witness for C10 on the concrete store: the protein percentage is
    Infinity, a non-finite value. -/
theorem C10_zero_goal_division_witness :
    (getUserDailyProgress c10Store 1 0).progress_percentages.protein =
      JSVal.posInf ∧
    jsIsFinite (getUserDailyProgress c10Store 1 0).progress_percentages.protein
      = false := by
  have h := C10_zero_goal_division c10Store 1 0 c10Goals c10Summary rfl
    (by norm_num [dailyGoalsValid, c10Goals]) rfl rfl
    (by norm_num [c10Summary])
  refine ⟨?_, h.2⟩
  rw [h.1, if_pos (by norm_num [c10Summary] : (0 : ℚ) < c10Summary.total_protein)]

end Diet
